import Mathlib

/-!
# cStor pool upgrade 1.0.0 → 1.1.0 (`pkg/upgrade/1.0.0-1.1.0/v1alpha1/csp_upgrade.go`)

A shallow embedding of the pool upgrade path: the two resolvers
(`getCSPObject`, `getCSPDeployment`), the two patchers (`patchCSP`,
`patchCSPDeploy`), the two steps (`preUpgrade`, `poolInstanceUpgarde`) and the
orchestrator `cspUpgrade`.

The package-level variables are explicit: the configuration strings and the
strictness flag are a `Config`, the API clients and the helpers declared in
other files are an `Env`, and the shared render buffer together with the log of
everything the run did is a `World` that is threaded through every function.
A collaborator's answer may depend on the whole log so far, which covers every
deterministic cluster behaviour.  `klog` output is not modelled.
-/

namespace CspUpgrade

/-! ## Data model -/

/-- A non-nil Go `error`; the only thing the upgrade code observes of it is the
text returned by `Error()`. -/
structure GoError where
  msg : String
deriving DecidableEq

/-- The method `err.Error()`. -/
def GoError.Error (e : GoError) : String := e.msg

/-- Modelled from the spec: `errors.Errorf` of `pkg/errors/v1alpha1`, which is
declared outside this file.  The error text is the formatted message (the spec
reports the formatted text of the version-mismatch error as the status reason);
callers build the formatted string by concatenation. -/
def Errorf (formatted : String) : GoError := ⟨formatted⟩

/-- A Go `map[string]string` of labels. -/
abbrev Labels := List (String × String)

/-- Indexing `m[key]` of a Go map: the zero value `""` when the key is absent. -/
def labelOf (m : Labels) (key : String) : String := (m.lookup key).getD ""

/-- The fields of `apis.CStorPool` that the upgrade reads. -/
structure CStorPool where
  Name : String
  Labels : Labels
deriving DecidableEq

/-- One container of a deployment's pod template. -/
structure Container where
  Name : String
  Image : String
deriving DecidableEq

/-- The fields of `appsv1.Deployment` that the upgrade reads. -/
structure Deployment where
  Name : String
  Labels : Labels
  Containers : List Container
deriving DecidableEq

/-- The steps `utask.PreUpgrade` and `utask.PoolInstanceUpgrade`. -/
inductive UpgradeStep where
  | PreUpgrade
  | PoolInstanceUpgrade
deriving DecidableEq

/-- The phases `utask.StepWaiting`, `utask.StepErrored`, `utask.StepCompleted`. -/
inductive StepPhase where
  | StepWaiting
  | StepErrored
  | StepCompleted
deriving DecidableEq

/-- The fields of `utask.UpgradeDetailedStatuses` that the upgrade sets. -/
structure UpgradeDetailedStatuses where
  Step : UpgradeStep
  Phase : StepPhase
  Message : String
  Reason : String
deriving DecidableEq

/-- Modelled from the spec: `utask.UpgradeTask` is declared outside this file;
per the data model it is an identity and an ordered collection of step
statuses.  The upgrade code never looks inside it. -/
structure UpgradeTask where
  Name : String
  Namespace : String
  Statuses : List UpgradeDetailedStatuses
deriving DecidableEq

/-- The struct `cspDeployPatchDetails`. -/
structure cspDeployPatchDetails where
  UpgradeVersion : String
  ImageTag : String
  PoolImage : String
  PoolMgmtImage : String
  MExporterImage : String
deriving DecidableEq

/-- The data handed to `tmpl.Execute`: the target version string for the pool
patch, the patch details for the deployment patch. -/
inductive TemplateData where
  | version (v : String)
  | details (d : cspDeployPatchDetails)
deriving DecidableEq

/-- The four resolution and patch operations of this file. -/
inductive Op where
  | getCSPObject
  | getCSPDeployment
  | patchCSPDeploy
  | patchCSP
deriving DecidableEq

/-- One entry of the log of a run.  The first seven are calls to collaborators
(with what the status collaborator answered); `returned op err` records that a
step called `op` and which error it assigned to its variable `err`. -/
inductive Event where
  | getOrCreateUpgradeTask (kind name ns : String)
      (res : Option UpgradeTask) (err : Option GoError)
  | updateUpgradeDetailedStatus (obj : Option UpgradeTask)
      (status : UpgradeDetailedStatuses) (ns : String)
      (res : Option UpgradeTask) (err : Option GoError)
  | cspClientGet (name : String)
  | getDeployment (label ns : String)
  | templateExecute (name : String) (data : TemplateData)
  | cspClientPatch (name patch : String)
  | patchDelpoyment (name ns patch : String)
  | returned (op : Op) (err : Option GoError)
deriving DecidableEq

/-- The package-level configuration variables `currentVersion`,
`upgradeVersion`, `imageTag` and the strictness flag `isENVPresent`. -/
structure Config where
  currentVersion : String
  upgradeVersion : String
  imageTag : String
  isENVPresent : Bool
deriving DecidableEq

/-- The collaborators: API clients and the helpers of this package and of
`pkg/errors` that are declared in other files.  The clients see the log so far.
A pointer result that may be nil is an `Option`; an `error` result is
`Option GoError` with `none` for nil. -/
structure Env where
  /-- The helper `getOrCreateUpgradeTask(kind, name, namespace)`. -/
  getOrCreateUpgradeTask :
    List Event → String → String → String → Option UpgradeTask × Option GoError
  /-- The helper `updateUpgradeDetailedStatus(utaskObj, statusObj, namespace)`. -/
  updateUpgradeDetailedStatus :
    List Event → Option UpgradeTask → UpgradeDetailedStatuses → String →
      Option UpgradeTask × Option GoError
  /-- The call `cspClient.Get(name, metav1.GetOptions)`. -/
  cspClientGet : List Event → String → Except GoError CStorPool
  /-- The call `cspClient.Patch(name, types.MergePatchType, patch)`; only its error is used. -/
  cspClientPatch : List Event → String → String → Option GoError
  /-- The helper `getDeployment(labels, namespace)`. -/
  getDeployment : List Event → String → String → Except GoError Deployment
  /-- The helper `patchDelpoyment(name, namespace, types.StrategicMergePatchType, patch)`. -/
  patchDelpoyment : List Event → String → String → String → Option GoError
  /-- The helper `getOpenEBSVersion(d)`. -/
  getOpenEBSVersion : Deployment → Except GoError String
  /-- The helper `getBaseImage(d, containerName)`. -/
  getBaseImage : Deployment → String → Except GoError String
  /-- The call `template.New(name).Parse(text)` on the template constant of that
  name; `none` when it parses. -/
  templateParse : String → Option GoError
  /-- The call `tmpl.Execute(&buffer, data)`: the bytes written and the error. -/
  templateExecute : String → TemplateData → String × Option GoError
  /-- The helper `errors.Wrapf(err, formatted)` on a non-nil `err`: a non-nil error. -/
  Wrapf : GoError → String → GoError

/-- The mutable state of a run: the log and the package-level `buffer`. -/
structure World where
  trace : List Event
  buffer : String
deriving DecidableEq

/-- Append an entry to the log. -/
def World.log (w : World) (e : Event) : World := { w with trace := w.trace ++ [e] }

/-- The library call `strings.Replace(s, ":", "", -1)`: every `:` removed. -/
def removeColons (s : String) : String := ⟨s.data.filter (fun ch => ch != ':')⟩

/-- How a Go call ended: it returned an `error` value (`none` is nil), or it
dereferenced a nil pointer. -/
inductive Outcome where
  | returned (err : Option GoError)
  | panicked
deriving DecidableEq

/-- The struct `cstorCSPOptions`; all three fields are pointers. -/
structure cstorCSPOptions where
  utaskObj : Option UpgradeTask
  cspObj : Option CStorPool
  cspDeployObj : Option Deployment
deriving DecidableEq

/-- State after a step method: how it ended, the receiver, the world. -/
structure StepResult where
  out : Outcome
  c : cstorCSPOptions
  w : World
deriving DecidableEq

/-- What `cspUpgrade` hands back: the task pointer, how it ended, the world. -/
structure UpgradeResult where
  utaskObj : Option UpgradeTask
  out : Outcome
  w : World
deriving DecidableEq

/-! ## The functions of `csp_upgrade.go` -/

/-- Lines 38-63. -/
def getCSPDeployPatchDetails (env : Env) (cfg : Config) (d : Deployment) :
    Except GoError cspDeployPatchDetails :=
  match env.getBaseImage d "cstor-pool" with
  | .error err => .error err
  | .ok cstorPoolImage =>
    match env.getBaseImage d "cstor-pool-mgmt" with
    | .error err => .error err
    | .ok cstorPoolMgmtImage =>
      match env.getBaseImage d "maya-exporter" with
      | .error err => .error err
      | .ok MExporterImage =>
        .ok { UpgradeVersion := ""
              ImageTag := if cfg.imageTag ≠ "" then cfg.imageTag else cfg.upgradeVersion
              PoolImage := cstorPoolImage
              PoolMgmtImage := cstorPoolMgmtImage
              MExporterImage := MExporterImage }

/-- Lines 65-83. -/
def getCSPObject (env : Env) (cfg : Config) (w : World) (cspName : String) :
    Except GoError CStorPool × World :=
  if cspName = "" then
    (.error (Errorf "missing csp name"), w)
  else
    match env.cspClientGet w.trace cspName with
    | .error err =>
      (.error (env.Wrapf err ("failed to get csp " ++ cspName)),
        w.log (.cspClientGet cspName))
    | .ok cspObj =>
      let w := w.log (.cspClientGet cspName)
      let cspVersion := labelOf cspObj.Labels "openebs.io/version"
      if cspVersion ≠ cfg.currentVersion ∧ cspVersion ≠ cfg.upgradeVersion then
        (.error (Errorf ("cstor pool version " ++ cspVersion ++ " is neither "
          ++ cfg.currentVersion ++ " nor " ++ cfg.upgradeVersion)), w)
      else
        (.ok cspObj, w)

/-- Lines 85-110. -/
def getCSPDeployment (env : Env) (cfg : Config) (w : World)
    (cspName openebsNamespace : String) : Except GoError Deployment × World :=
  if openebsNamespace = "" then
    (.error (Errorf "missing openebs namespace"), w)
  else
    let cspLabel := "openebs.io/cstor-pool=" ++ cspName
    match env.getDeployment w.trace cspLabel openebsNamespace with
    | .error err =>
      (.error (env.Wrapf err ("failed to get deployment for csp " ++ cspName)),
        w.log (.getDeployment cspLabel openebsNamespace))
    | .ok cspDeployObj =>
      let w := w.log (.getDeployment cspLabel openebsNamespace)
      if cspDeployObj.Name = "" then
        (.error (Errorf ("missing deployment name for csp " ++ cspName)), w)
      else
        match env.getOpenEBSVersion cspDeployObj with
        | .error err => (.error err, w)
        | .ok cspDeployVersion =>
          if cspDeployVersion ≠ cfg.currentVersion ∧
              cspDeployVersion ≠ cfg.upgradeVersion then
            (.error (Errorf ("cstor pool version " ++ cspDeployVersion ++ " is neither "
              ++ cfg.currentVersion ++ " nor " ++ cfg.upgradeVersion)), w)
          else
            (.ok cspDeployObj, w)

/-- Lines 112-139. -/
def patchCSP (env : Env) (cfg : Config) (w : World) (cspObj : CStorPool) :
    Option GoError × World :=
  let cspVersion := labelOf cspObj.Labels "openebs.io/version"
  if cspVersion = cfg.currentVersion then
    match env.templateParse "cspPatch" with
    | some err => (some (env.Wrapf err "failed to create template for csp patch"), w)
    | none =>
      let r := env.templateExecute "cspPatch" (.version cfg.upgradeVersion)
      let w := { w with buffer := w.buffer ++ r.1 }.log
        (.templateExecute "cspPatch" (.version cfg.upgradeVersion))
      match r.2 with
      | some err => (some (env.Wrapf err "failed to populate template for csp patch"), w)
      | none =>
        let cspPatch := w.buffer
        let w := { w with buffer := "" }
        let perr := env.cspClientPatch w.trace cspObj.Name cspPatch
        let w := w.log (.cspClientPatch cspObj.Name cspPatch)
        match perr with
        | some err => (some (env.Wrapf err ("failed to patch csp " ++ cspObj.Name)), w)
        | none => (none, w)
  else
    (none, w)

/-- Lines 141-177. -/
def patchCSPDeploy (env : Env) (cfg : Config) (w : World) (cspDeployObj : Deployment)
    (openebsNamespace : String) : Option GoError × World :=
  let cspDeployVersion := labelOf cspDeployObj.Labels "openebs.io/version"
  if cspDeployVersion = cfg.currentVersion then
    match getCSPDeployPatchDetails env cfg cspDeployObj with
    | .error err => (some err, w)
    | .ok patchDetails =>
      let patchDetails := { patchDetails with UpgradeVersion := cfg.upgradeVersion }
      match env.templateParse "cspDeployPatch" with
      | some err =>
        (some (env.Wrapf err "failed to create template for csp deployment patch"), w)
      | none =>
        let r := env.templateExecute "cspDeployPatch" (.details patchDetails)
        let w := { w with buffer := w.buffer ++ r.1 }.log
          (.templateExecute "cspDeployPatch" (.details patchDetails))
        match r.2 with
        | some err =>
          (some (env.Wrapf err "failed to populate template for csp deployment patch"), w)
        | none =>
          let cspDeployPatch := w.buffer
          let w := { w with buffer := "" }
          let perr := env.patchDelpoyment w.trace cspDeployObj.Name openebsNamespace
            cspDeployPatch
          let w := w.log (.patchDelpoyment cspDeployObj.Name openebsNamespace cspDeployPatch)
          match perr with
          | some err =>
            (some (env.Wrapf err ("failed to patch deployment " ++ cspDeployObj.Name)), w)
          | none => (none, w)
  else
    (none, w)

/-- Lines 185-232, the method `(*cstorCSPOptions).preUpgrade`. -/
def preUpgrade (env : Env) (cfg : Config) (c : cstorCSPOptions) (w : World)
    (cspName openebsNamespace : String) : StepResult :=
  let r := env.getOrCreateUpgradeTask w.trace "cstorPool" cspName openebsNamespace
  let w := w.log (.getOrCreateUpgradeTask "cstorPool" cspName openebsNamespace r.1 r.2)
  let c := { c with utaskObj := r.1 }
  if r.2 ≠ none ∧ cfg.isENVPresent = true then ⟨.returned r.2, c, w⟩ else
  let statusObj : UpgradeDetailedStatuses := ⟨.PreUpgrade, .StepWaiting, "", ""⟩
  let r := env.updateUpgradeDetailedStatus w.trace c.utaskObj statusObj openebsNamespace
  let w := w.log (.updateUpgradeDetailedStatus c.utaskObj statusObj openebsNamespace r.1 r.2)
  let c := { c with utaskObj := r.1 }
  if r.2 ≠ none ∧ cfg.isENVPresent = true then ⟨.returned r.2, c, w⟩ else
  let statusObj := { statusObj with Phase := .StepErrored }
  match getCSPObject env cfg w cspName with
  | (.error err, w) =>
    let w := w.log (.returned .getCSPObject (some err))
    let c := { c with cspObj := none }
    let statusObj := { statusObj with
      Message := "failed to verify cstor pool", Reason := removeColons err.Error }
    let r := env.updateUpgradeDetailedStatus w.trace c.utaskObj statusObj openebsNamespace
    let w := w.log
      (.updateUpgradeDetailedStatus c.utaskObj statusObj openebsNamespace r.1 r.2)
    let c := { c with utaskObj := r.1 }
    if r.2 ≠ none ∧ cfg.isENVPresent = true then ⟨.returned r.2, c, w⟩ else
    ⟨.returned (some err), c, w⟩
  | (.ok cspObj, w) =>
    let w := w.log (.returned .getCSPObject none)
    let c := { c with cspObj := some cspObj }
    match getCSPDeployment env cfg w cspName openebsNamespace with
    | (.error err, w) =>
      let w := w.log (.returned .getCSPDeployment (some err))
      let c := { c with cspDeployObj := none }
      let statusObj := { statusObj with
        Message := "failed to verify cstor pool deployment"
        Reason := removeColons err.Error }
      let r := env.updateUpgradeDetailedStatus w.trace c.utaskObj statusObj openebsNamespace
      let w := w.log
        (.updateUpgradeDetailedStatus c.utaskObj statusObj openebsNamespace r.1 r.2)
      let c := { c with utaskObj := r.1 }
      if r.2 ≠ none ∧ cfg.isENVPresent = true then ⟨.returned r.2, c, w⟩ else
      ⟨.returned (some err), c, w⟩
    | (.ok cspDeployObj, w) =>
      let w := w.log (.returned .getCSPDeployment none)
      let c := { c with cspDeployObj := some cspDeployObj }
      let statusObj := { statusObj with
        Phase := .StepCompleted, Message := "Pre-upgrade steps were successful"
        Reason := "" }
      let r := env.updateUpgradeDetailedStatus w.trace c.utaskObj statusObj openebsNamespace
      let w := w.log
        (.updateUpgradeDetailedStatus c.utaskObj statusObj openebsNamespace r.1 r.2)
      let c := { c with utaskObj := r.1 }
      if r.2 ≠ none ∧ cfg.isENVPresent = true then ⟨.returned r.2, c, w⟩ else
      ⟨.returned none, c, w⟩

/-- Lines 234-274, the method `(*cstorCSPOptions).poolInstanceUpgarde`.  The
two patchers dereference their pointer argument on their first line, so a nil
`cspDeployObj` or `cspObj` panics there. -/
def poolInstanceUpgarde (env : Env) (cfg : Config) (c : cstorCSPOptions) (w : World)
    (openebsNamespace : String) : StepResult :=
  let statusObj : UpgradeDetailedStatuses := ⟨.PoolInstanceUpgrade, .StepWaiting, "", ""⟩
  let r := env.updateUpgradeDetailedStatus w.trace c.utaskObj statusObj openebsNamespace
  let w := w.log (.updateUpgradeDetailedStatus c.utaskObj statusObj openebsNamespace r.1 r.2)
  let c := { c with utaskObj := r.1 }
  if r.2 ≠ none ∧ cfg.isENVPresent = true then ⟨.returned r.2, c, w⟩ else
  let statusObj := { statusObj with Phase := .StepErrored }
  match c.cspDeployObj with
  | none => ⟨.panicked, c, w⟩
  | some cspDeployObj =>
    match patchCSPDeploy env cfg w cspDeployObj openebsNamespace with
    | (some err, w) =>
      let w := w.log (.returned .patchCSPDeploy (some err))
      let statusObj := { statusObj with
        Message := "failed to patch cstor pool deployment"
        Reason := removeColons err.Error }
      let r := env.updateUpgradeDetailedStatus w.trace c.utaskObj statusObj openebsNamespace
      let w := w.log
        (.updateUpgradeDetailedStatus c.utaskObj statusObj openebsNamespace r.1 r.2)
      let c := { c with utaskObj := r.1 }
      if r.2 ≠ none ∧ cfg.isENVPresent = true then ⟨.returned r.2, c, w⟩ else
      ⟨.returned (some err), c, w⟩
    | (none, w) =>
      let w := w.log (.returned .patchCSPDeploy none)
      match c.cspObj with
      | none => ⟨.panicked, c, w⟩
      | some cspObj =>
        match patchCSP env cfg w cspObj with
        | (some err, w) =>
          let w := w.log (.returned .patchCSP (some err))
          let statusObj := { statusObj with
            Message := "failed to patch cstor pool", Reason := removeColons err.Error }
          let r := env.updateUpgradeDetailedStatus w.trace c.utaskObj statusObj
            openebsNamespace
          let w := w.log
            (.updateUpgradeDetailedStatus c.utaskObj statusObj openebsNamespace r.1 r.2)
          let c := { c with utaskObj := r.1 }
          if r.2 ≠ none ∧ cfg.isENVPresent = true then ⟨.returned r.2, c, w⟩ else
          ⟨.returned (some err), c, w⟩
        | (none, w) =>
          let w := w.log (.returned .patchCSP none)
          let statusObj := { statusObj with
            Phase := .StepCompleted, Message := "Pool instance upgrade was successful"
            Reason := "" }
          let r := env.updateUpgradeDetailedStatus w.trace c.utaskObj statusObj
            openebsNamespace
          let w := w.log
            (.updateUpgradeDetailedStatus c.utaskObj statusObj openebsNamespace r.1 r.2)
          let c := { c with utaskObj := r.1 }
          if r.2 ≠ none ∧ cfg.isENVPresent = true then ⟨.returned r.2, c, w⟩ else
          ⟨.returned none, c, w⟩

/-- Lines 276-294.  `options` starts as the zero struct; `w` is the world the
call starts in. -/
def cspUpgrade (env : Env) (cfg : Config) (w : World)
    (cspName openebsNamespace : String) : UpgradeResult :=
  let options : cstorCSPOptions := ⟨none, none, none⟩
  let s := preUpgrade env cfg options w cspName openebsNamespace
  if s.out ≠ .returned none then ⟨s.c.utaskObj, s.out, s.w⟩ else
  let s := poolInstanceUpgarde env cfg s.c s.w openebsNamespace
  if s.out ≠ .returned none then ⟨s.c.utaskObj, s.out, s.w⟩ else
  ⟨s.c.utaskObj, .returned none, s.w⟩

/-! ## Observing a run -/

/-- The entries that were logged between world `w` and the later world `w2`. -/
def eventsSince (w w2 : World) : List Event := w2.trace.drop w.trace.length

/-- The log of one call of `cspUpgrade` started in world `w`. -/
def runLog (env : Env) (cfg : Config) (w : World) (cspName ns : String) : List Event :=
  eventsSince w (cspUpgrade env cfg w cspName ns).w

/-- The statuses passed to `updateUpgradeDetailedStatus`, in the order of the calls. -/
def statusUpdates : List Event → List UpgradeDetailedStatuses
  | [] => []
  | .updateUpgradeDetailedStatus _ st _ _ _ :: t => st :: statusUpdates t
  | _ :: t => statusUpdates t

/-- The phases written for one step, in the order of the calls. -/
def phasesOf (step : UpgradeStep) (evs : List Event) : List StepPhase :=
  ((statusUpdates evs).filter (fun st => st.Step = step)).map (fun st => st.Phase)

/-- A read of the cluster: `cspClient.Get` or `getDeployment`. -/
def Event.isFetch : Event → Bool
  | .cspClientGet _ => true
  | .getDeployment _ _ => true
  | _ => false

/-- Patch activity on a collaborator: rendering a patch template, patching the
pool, patching the deployment. -/
def Event.isApply : Event → Bool
  | .templateExecute _ _ => true
  | .cspClientPatch _ _ => true
  | .patchDelpoyment _ _ _ => true
  | _ => false

/-- A resolution or patch operation that returned a non-nil error. -/
def Event.isOpFailure : Event → Bool
  | .returned _ (some _) => true
  | _ => false

/-- Whether every `updateUpgradeDetailedStatus` call of the log was handed the
record that the status call before it returned (`cur` before the first call). -/
def recordFlow : Option UpgradeTask → List Event → Bool
  | _, [] => true
  | _, .getOrCreateUpgradeTask _ _ _ res _ :: t => recordFlow res t
  | cur, .updateUpgradeDetailedStatus obj _ _ res _ :: t =>
    decide (obj = cur) && recordFlow res t
  | cur, _ :: t => recordFlow cur t

/-- The record returned by the last status call of the log (`cur` if none). -/
def lastRecord : Option UpgradeTask → List Event → Option UpgradeTask
  | cur, [] => cur
  | _, .getOrCreateUpgradeTask _ _ _ res _ :: t => lastRecord res t
  | _, .updateUpgradeDetailedStatus _ _ _ res _ :: t => lastRecord res t
  | cur, _ :: t => lastRecord cur t

/-- The guard `uerr != nil && isENVPresent` on the answer `r` of a status call. -/
def aborts (cfg : Config) (r : Option UpgradeTask × Option GoError) : Prop :=
  r.2 ≠ none ∧ cfg.isENVPresent = true

instance (cfg : Config) (r : Option UpgradeTask × Option GoError) :
    Decidable (aborts cfg r) := by
  unfold aborts; infer_instance

/-- The error a step returns after a status write answered `r`: the write's
error when the guard fires, otherwise `err`. -/
def finalErr (cfg : Config) (r : Option UpgradeTask × Option GoError)
    (err : Option GoError) : Option GoError :=
  if aborts cfg r then r.2 else err

/-- Log entry of the `getOrCreateUpgradeTask` call that answered `r`. -/
def evTask (cspName ns : String) (r : Option UpgradeTask × Option GoError) : Event :=
  .getOrCreateUpgradeTask "cstorPool" cspName ns r.1 r.2

/-- Log entry of an `updateUpgradeDetailedStatus` call that answered `r`. -/
def upd (obj : Option UpgradeTask) (step : UpgradeStep) (phase : StepPhase)
    (msg reason ns : String) (r : Option UpgradeTask × Option GoError) : Event :=
  .updateUpgradeDetailedStatus obj ⟨step, phase, msg, reason⟩ ns r.1 r.2

/-- Log of `preUpgrade` up to and including its Waiting write. -/
def preHead (cspName ns : String) (g u1 : Option UpgradeTask × Option GoError) : List Event :=
  [evTask cspName ns g, upd g.1 .PreUpgrade .StepWaiting "" "" ns u1]

/-- Log of a `preUpgrade` that resolved both objects and wrote Completed. -/
def preDone (cspName ns : String) (g u1 : Option UpgradeTask × Option GoError)
    (f1 f2 : List Event) (u2 : Option UpgradeTask × Option GoError) : List Event :=
  preHead cspName ns g u1 ++ f1 ++ [.returned .getCSPObject none] ++ f2 ++
    [.returned .getCSPDeployment none,
     upd u1.1 .PreUpgrade .StepCompleted "Pre-upgrade steps were successful" "" ns u2]

/-- The container names looked up by `getCSPDeployPatchDetails`, in its order. -/
def containerRoles : List String := ["cstor-pool", "cstor-pool-mgmt", "maya-exporter"]

/-! ## Sample configurations and clusters -/

/-- Upgrade from 1.0.0 to 1.1.0, status failures tolerated. -/
def cfgSoft : Config := ⟨"1.0.0", "1.1.0", "", false⟩

/-- Upgrade from 1.0.0 to 1.1.0, status failures fatal. -/
def cfgStrict : Config := ⟨"1.0.0", "1.1.0", "", true⟩

/-- A degenerate configuration whose target version equals its current version. -/
def cfgSame : Config := ⟨"1.1.0", "1.1.0", "", false⟩

/-- A pool `pool1` labelled with version `v`. -/
def samplePool (v : String) : CStorPool := ⟨"pool1", [("openebs.io/version", v)]⟩

/-- The deployment of `pool1`, labelled with version `v`, running containers `cs`. -/
def sampleDeploy (v : String) (cs : List Container) : Deployment :=
  ⟨"pool1-deploy", [("openebs.io/version", v)], cs⟩

/-- The three containers of a pool deployment. -/
def threeContainers : List Container :=
  [⟨"cstor-pool", "openebs/cstor-pool"⟩, ⟨"cstor-pool-mgmt", "openebs/cstor-pool-mgmt"⟩,
   ⟨"maya-exporter", "openebs/m-exporter"⟩]

/-- A pool deployment without the management sidecar. -/
def twoContainers : List Container :=
  [⟨"cstor-pool", "openebs/cstor-pool"⟩, ⟨"maya-exporter", "openebs/m-exporter"⟩]

/-- A record as `getOrCreateUpgradeTask` creates it. -/
def sampleTask : UpgradeTask := ⟨"upgrade-cstorpool-pool1", "openebs", []⟩

/-- A cluster that serves `pool` and `deploy` to every query and accepts every
patch.  Creating the task record fails when `taskFails`; a status update fails,
returning a nil record, when `failOn` holds of its phase, and otherwise appends
the status to the record. -/
def sampleEnv (pool : CStorPool) (deploy : Deployment) (taskFails : Bool)
    (failOn : StepPhase → Bool) : Env where
  getOrCreateUpgradeTask := fun _ _ name ns =>
    if taskFails then (none, some ⟨"failed to create upgradetask"⟩)
    else (some ⟨"upgrade-cstorpool-" ++ name, ns, []⟩, none)
  updateUpgradeDetailedStatus := fun _ obj st _ =>
    if failOn st.Phase then (none, some ⟨"failed to update upgradetask"⟩)
    else (obj.map (fun t => { t with Statuses := t.Statuses ++ [st] }), none)
  cspClientGet := fun _ _ => .ok pool
  cspClientPatch := fun _ _ _ => none
  getDeployment := fun _ _ _ => .ok deploy
  patchDelpoyment := fun _ _ _ _ => none
  getOpenEBSVersion := fun d =>
    if labelOf d.Labels "openebs.io/version" = "" then .error ⟨"missing openebs version"⟩
    else .ok (labelOf d.Labels "openebs.io/version")
  getBaseImage := fun d name =>
    match d.Containers.find? (fun k => k.Name == name) with
    | some k => .ok k.Image
    | none => .error ⟨"image not found for " ++ name⟩
  templateParse := fun _ => none
  templateExecute := fun name _ => ("patch for " ++ name, none)
  Wrapf := fun e m => ⟨m ++ ": " ++ e.msg⟩

/-- The cluster of a pool at 1.0.0 whose deployment lacks the management
sidecar; every status call succeeds. -/
def envNoMgmt : Env :=
  sampleEnv (samplePool "1.0.0") (sampleDeploy "1.0.0" twoContainers) false (fun _ => false)

/-- The receiver after a successful `preUpgrade` on that cluster. -/
def optsNoMgmt : cstorCSPOptions :=
  ⟨some sampleTask, some (samplePool "1.0.0"), some (sampleDeploy "1.0.0" twoContainers)⟩

/-- A world with an empty log and an empty buffer. -/
def emptyWorld : World := ⟨[], ""⟩

/-! ## What each operation adds to the log -/

theorem World.log_trace (w : World) (e : Event) : (w.log e).trace = w.trace ++ [e] := rfl

theorem eventsSince_of_trace {w w2 : World} {l : List Event}
    (h : w2.trace = w.trace ++ l) : eventsSince w w2 = l := by
  simp [eventsSince, h]

/-- The resolver of the pool logs only fetches. -/
theorem getCSPObject_frame (env : Env) (cfg : Config) (w : World) (n : String) :
    ∃ f, (getCSPObject env cfg w n).2.trace = w.trace ++ f ∧
      ∀ ev ∈ f, ev.isFetch = true := by
  unfold getCSPObject
  split
  · exact ⟨[], by simp, by simp⟩
  · split
    · exact ⟨[.cspClientGet n], by simp [World.log], by simp [Event.isFetch]⟩
    · simp only []
      split
      · exact ⟨[.cspClientGet n], by simp [World.log], by simp [Event.isFetch]⟩
      · exact ⟨[.cspClientGet n], by simp [World.log], by simp [Event.isFetch]⟩

/-- The resolver of the deployment logs only fetches. -/
theorem getCSPDeployment_frame (env : Env) (cfg : Config) (w : World) (n ns : String) :
    ∃ f, (getCSPDeployment env cfg w n ns).2.trace = w.trace ++ f ∧
      ∀ ev ∈ f, ev.isFetch = true := by
  unfold getCSPDeployment
  split
  · exact ⟨[], by simp, by simp⟩
  · simp only []
    split
    · exact ⟨[.getDeployment ("openebs.io/cstor-pool=" ++ n) ns],
        by simp [World.log], by simp [Event.isFetch]⟩
    · split
      · exact ⟨[.getDeployment ("openebs.io/cstor-pool=" ++ n) ns],
          by simp [World.log], by simp [Event.isFetch]⟩
      · split
        · exact ⟨[.getDeployment ("openebs.io/cstor-pool=" ++ n) ns],
            by simp [World.log], by simp [Event.isFetch]⟩
        · split
          · exact ⟨[.getDeployment ("openebs.io/cstor-pool=" ++ n) ns],
              by simp [World.log], by simp [Event.isFetch]⟩
          · exact ⟨[.getDeployment ("openebs.io/cstor-pool=" ++ n) ns],
              by simp [World.log], by simp [Event.isFetch]⟩

/-- The pool patcher logs only patch activity. -/
theorem patchCSP_frame (env : Env) (cfg : Config) (w : World) (p : CStorPool) :
    ∃ f, (patchCSP env cfg w p).2.trace = w.trace ++ f ∧ ∀ ev ∈ f, ev.isApply = true := by
  unfold patchCSP
  simp only []
  split
  · split
    · exact ⟨[], by simp, by simp⟩
    · split
      · exact ⟨[.templateExecute "cspPatch" (.version cfg.upgradeVersion)],
          by simp [World.log], by simp [Event.isApply]⟩
      · split
        · exact ⟨[.templateExecute "cspPatch" (.version cfg.upgradeVersion),
            .cspClientPatch p.Name
              (w.buffer ++ (env.templateExecute "cspPatch" (.version cfg.upgradeVersion)).1)],
            by simp [World.log], by simp [Event.isApply]⟩
        · exact ⟨[.templateExecute "cspPatch" (.version cfg.upgradeVersion),
            .cspClientPatch p.Name
              (w.buffer ++ (env.templateExecute "cspPatch" (.version cfg.upgradeVersion)).1)],
            by simp [World.log], by simp [Event.isApply]⟩
  · exact ⟨[], by simp, by simp⟩

/-- The deployment patcher logs only patch activity. -/
theorem patchCSPDeploy_frame (env : Env) (cfg : Config) (w : World) (d : Deployment)
    (ns : String) :
    ∃ f, (patchCSPDeploy env cfg w d ns).2.trace = w.trace ++ f ∧
      ∀ ev ∈ f, ev.isApply = true := by
  unfold patchCSPDeploy
  simp only []
  split
  · split
    · exact ⟨[], by simp, by simp⟩
    · rename_i pd hpd
      split
      · exact ⟨[], by simp, by simp⟩
      · split
        · exact ⟨[.templateExecute "cspDeployPatch"
            (.details { pd with UpgradeVersion := cfg.upgradeVersion })],
            by simp [World.log], by simp [Event.isApply]⟩
        · split
          · exact ⟨[.templateExecute "cspDeployPatch"
              (.details { pd with UpgradeVersion := cfg.upgradeVersion }),
              .patchDelpoyment d.Name ns (w.buffer ++ (env.templateExecute "cspDeployPatch"
                (.details { pd with UpgradeVersion := cfg.upgradeVersion })).1)],
              by simp [World.log], by simp [Event.isApply]⟩
          · exact ⟨[.templateExecute "cspDeployPatch"
              (.details { pd with UpgradeVersion := cfg.upgradeVersion }),
              .patchDelpoyment d.Name ns (w.buffer ++ (env.templateExecute "cspDeployPatch"
                (.details { pd with UpgradeVersion := cfg.upgradeVersion })).1)],
              by simp [World.log], by simp [Event.isApply]⟩
  · exact ⟨[], by simp, by simp⟩

/-! ## The paths through the two steps -/

theorem finalErr_some_ne_none (cfg : Config) (r : Option UpgradeTask × Option GoError)
    (e : GoError) : finalErr cfg r (some e) ≠ none := by
  unfold finalErr
  split
  · rename_i h; exact h.1
  · simp

theorem finalErr_of_not_aborts {cfg : Config} {r : Option UpgradeTask × Option GoError}
    (h : ¬ aborts cfg r) (err : Option GoError) : finalErr cfg r err = err := by
  simp [finalErr, h]

theorem finalErr_of_aborts {cfg : Config} {r : Option UpgradeTask × Option GoError}
    (h : aborts cfg r) (err : Option GoError) : finalErr cfg r err = r.2 := by
  simp [finalErr, h]

/-- The five paths through `preUpgrade`; `g` and `u1` are the answers of the
first two status calls. -/
theorem preUpgrade_cases (env : Env) (cfg : Config) (c : cstorCSPOptions) (w : World)
    (cspName ns : String) :
    ∃ g u1, g = env.getOrCreateUpgradeTask w.trace "cstorPool" cspName ns ∧
    ((aborts cfg g ∧ preUpgrade env cfg c w cspName ns =
        ⟨.returned g.2, ⟨g.1, c.cspObj, c.cspDeployObj⟩, w.log (evTask cspName ns g)⟩) ∨
     (¬ aborts cfg g ∧ aborts cfg u1 ∧ preUpgrade env cfg c w cspName ns =
        ⟨.returned u1.2, ⟨u1.1, c.cspObj, c.cspDeployObj⟩,
          (w.log (evTask cspName ns g)).log (upd g.1 .PreUpgrade .StepWaiting "" "" ns u1)⟩) ∨
     (¬ aborts cfg g ∧ ¬ aborts cfg u1 ∧ ∃ err w2 u2,
        getCSPObject env cfg
          ((w.log (evTask cspName ns g)).log (upd g.1 .PreUpgrade .StepWaiting "" "" ns u1))
          cspName = (.error err, w2) ∧
        preUpgrade env cfg c w cspName ns =
          ⟨.returned (finalErr cfg u2 (some err)),
           ⟨u2.1, none, c.cspDeployObj⟩,
           (w2.log (.returned .getCSPObject (some err))).log
              (upd u1.1 .PreUpgrade .StepErrored "failed to verify cstor pool"
                (removeColons err.Error) ns u2)⟩) ∨
     (¬ aborts cfg g ∧ ¬ aborts cfg u1 ∧ ∃ p w2 err w3 u2,
        getCSPObject env cfg
          ((w.log (evTask cspName ns g)).log (upd g.1 .PreUpgrade .StepWaiting "" "" ns u1))
          cspName = (.ok p, w2) ∧
        getCSPDeployment env cfg (w2.log (.returned .getCSPObject none)) cspName ns
          = (.error err, w3) ∧
        preUpgrade env cfg c w cspName ns =
          ⟨.returned (finalErr cfg u2 (some err)),
           ⟨u2.1, some p, none⟩,
           (w3.log (.returned .getCSPDeployment (some err))).log
              (upd u1.1 .PreUpgrade .StepErrored "failed to verify cstor pool deployment"
                (removeColons err.Error) ns u2)⟩) ∨
     (¬ aborts cfg g ∧ ¬ aborts cfg u1 ∧ ∃ p w2 d w3 u2,
        getCSPObject env cfg
          ((w.log (evTask cspName ns g)).log (upd g.1 .PreUpgrade .StepWaiting "" "" ns u1))
          cspName = (.ok p, w2) ∧
        getCSPDeployment env cfg (w2.log (.returned .getCSPObject none)) cspName ns
          = (.ok d, w3) ∧
        preUpgrade env cfg c w cspName ns =
          ⟨.returned (finalErr cfg u2 none),
           ⟨u2.1, some p, some d⟩,
           (w3.log (.returned .getCSPDeployment none)).log
              (upd u1.1 .PreUpgrade .StepCompleted "Pre-upgrade steps were successful" ""
                ns u2)⟩)) := by
  unfold preUpgrade
  simp only []
  generalize hg : env.getOrCreateUpgradeTask w.trace "cstorPool" cspName ns = g
  generalize env.updateUpgradeDetailedStatus
    (w.log (Event.getOrCreateUpgradeTask "cstorPool" cspName ns g.1 g.2)).trace g.1
    ⟨.PreUpgrade, .StepWaiting, "", ""⟩ ns = u1
  refine ⟨g, u1, rfl, ?_⟩
  by_cases h0 : aborts cfg g
  · left
    exact ⟨h0, by unfold aborts at h0; rw [if_pos h0]; rfl⟩
  · right
    have h0' := h0
    unfold aborts at h0'
    rw [if_neg h0']
    by_cases h1 : aborts cfg u1
    · left
      exact ⟨h0, h1, by unfold aborts at h1; rw [if_pos h1]; rfl⟩
    · right
      have h1' := h1
      unfold aborts at h1'
      rw [if_neg h1']
      split
      · rename_i err w2 heq
        left
        generalize env.updateUpgradeDetailedStatus
          (w2.log (Event.returned Op.getCSPObject (some err))).trace u1.1
          ⟨.PreUpgrade, .StepErrored, "failed to verify cstor pool", removeColons err.Error⟩
          ns = u2
        refine ⟨h0, h1, err, w2, u2, heq, ?_⟩
        simp only [finalErr, aborts, upd]
        split <;> rfl
      · rename_i p w2 heq
        right
        split
        · rename_i err w3 heq2
          left
          generalize env.updateUpgradeDetailedStatus
            (w3.log (Event.returned Op.getCSPDeployment (some err))).trace u1.1
            ⟨.PreUpgrade, .StepErrored, "failed to verify cstor pool deployment",
              removeColons err.Error⟩ ns = u2
          refine ⟨h0, h1, p, w2, err, w3, u2, heq, heq2, ?_⟩
          simp only [finalErr, aborts, upd]
          split <;> rfl
        · rename_i d w3 heq2
          right
          generalize env.updateUpgradeDetailedStatus
            (w3.log (Event.returned Op.getCSPDeployment none)).trace u1.1
            ⟨.PreUpgrade, .StepCompleted, "Pre-upgrade steps were successful", ""⟩ ns = u2
          refine ⟨h0, h1, p, w2, d, w3, u2, heq, heq2, ?_⟩
          simp only [finalErr, aborts, upd]
          split <;> rfl

/-- The six paths through `poolInstanceUpgarde`; `u1` is the answer of its
Waiting write. -/
theorem poolInstanceUpgarde_cases (env : Env) (cfg : Config) (c : cstorCSPOptions) (w : World)
    (ns : String) :
    ∃ u1, u1 = env.updateUpgradeDetailedStatus w.trace c.utaskObj
        ⟨.PoolInstanceUpgrade, .StepWaiting, "", ""⟩ ns ∧
    ((aborts cfg u1 ∧ poolInstanceUpgarde env cfg c w ns =
        ⟨.returned u1.2, ⟨u1.1, c.cspObj, c.cspDeployObj⟩,
          w.log (upd c.utaskObj .PoolInstanceUpgrade .StepWaiting "" "" ns u1)⟩) ∨
     (¬ aborts cfg u1 ∧ c.cspDeployObj = none ∧ poolInstanceUpgarde env cfg c w ns =
        ⟨.panicked, ⟨u1.1, c.cspObj, c.cspDeployObj⟩,
          w.log (upd c.utaskObj .PoolInstanceUpgrade .StepWaiting "" "" ns u1)⟩) ∨
     (¬ aborts cfg u1 ∧ ∃ d err w2 u2, c.cspDeployObj = some d ∧
        patchCSPDeploy env cfg
          (w.log (upd c.utaskObj .PoolInstanceUpgrade .StepWaiting "" "" ns u1)) d ns
          = (some err, w2) ∧
        poolInstanceUpgarde env cfg c w ns =
          ⟨.returned (finalErr cfg u2 (some err)),
           ⟨u2.1, c.cspObj, c.cspDeployObj⟩,
           (w2.log (.returned .patchCSPDeploy (some err))).log
              (upd u1.1 .PoolInstanceUpgrade .StepErrored
                "failed to patch cstor pool deployment" (removeColons err.Error) ns u2)⟩) ∨
     (¬ aborts cfg u1 ∧ ∃ d w2, c.cspDeployObj = some d ∧
        patchCSPDeploy env cfg
          (w.log (upd c.utaskObj .PoolInstanceUpgrade .StepWaiting "" "" ns u1)) d ns
          = (none, w2) ∧ c.cspObj = none ∧
        poolInstanceUpgarde env cfg c w ns =
          ⟨.panicked, ⟨u1.1, c.cspObj, c.cspDeployObj⟩,
            w2.log (.returned .patchCSPDeploy none)⟩) ∨
     (¬ aborts cfg u1 ∧ ∃ d w2 p err w3 u2, c.cspDeployObj = some d ∧
        patchCSPDeploy env cfg
          (w.log (upd c.utaskObj .PoolInstanceUpgrade .StepWaiting "" "" ns u1)) d ns
          = (none, w2) ∧ c.cspObj = some p ∧
        patchCSP env cfg (w2.log (.returned .patchCSPDeploy none)) p = (some err, w3) ∧
        poolInstanceUpgarde env cfg c w ns =
          ⟨.returned (finalErr cfg u2 (some err)),
           ⟨u2.1, c.cspObj, c.cspDeployObj⟩,
           (w3.log (.returned .patchCSP (some err))).log
              (upd u1.1 .PoolInstanceUpgrade .StepErrored
                "failed to patch cstor pool" (removeColons err.Error) ns u2)⟩) ∨
     (¬ aborts cfg u1 ∧ ∃ d w2 p w3 u2, c.cspDeployObj = some d ∧
        patchCSPDeploy env cfg
          (w.log (upd c.utaskObj .PoolInstanceUpgrade .StepWaiting "" "" ns u1)) d ns
          = (none, w2) ∧ c.cspObj = some p ∧
        patchCSP env cfg (w2.log (.returned .patchCSPDeploy none)) p = (none, w3) ∧
        poolInstanceUpgarde env cfg c w ns =
          ⟨.returned (finalErr cfg u2 none),
           ⟨u2.1, c.cspObj, c.cspDeployObj⟩,
           (w3.log (.returned .patchCSP none)).log
              (upd u1.1 .PoolInstanceUpgrade .StepCompleted
                "Pool instance upgrade was successful" "" ns u2)⟩)) := by
  unfold poolInstanceUpgarde
  simp only []
  generalize env.updateUpgradeDetailedStatus w.trace c.utaskObj
    ⟨.PoolInstanceUpgrade, .StepWaiting, "", ""⟩ ns = u1
  refine ⟨u1, rfl, ?_⟩
  by_cases h1 : aborts cfg u1
  · left
    exact ⟨h1, by unfold aborts at h1; rw [if_pos h1]; rfl⟩
  · right
    have h1' := h1
    unfold aborts at h1'
    rw [if_neg h1']
    split
    · rename_i hd
      left
      exact ⟨h1, hd, rfl⟩
    · rename_i d hd
      right
      split
      · rename_i err w2 heq
        left
        generalize env.updateUpgradeDetailedStatus
          (w2.log (Event.returned Op.patchCSPDeploy (some err))).trace u1.1
          ⟨.PoolInstanceUpgrade, .StepErrored, "failed to patch cstor pool deployment",
            removeColons err.Error⟩ ns = u2
        refine ⟨h1, d, err, w2, u2, hd, heq, ?_⟩
        simp only [finalErr, aborts, upd]
        split <;> rfl
      · rename_i w2 heq
        right
        split
        · rename_i hp
          left
          exact ⟨h1, d, w2, hd, heq, hp, rfl⟩
        · rename_i p hp
          right
          split
          · rename_i err w3 heq2
            left
            generalize env.updateUpgradeDetailedStatus
              (w3.log (Event.returned Op.patchCSP (some err))).trace u1.1
              ⟨.PoolInstanceUpgrade, .StepErrored, "failed to patch cstor pool",
                removeColons err.Error⟩ ns = u2
            refine ⟨h1, d, w2, p, err, w3, u2, hd, heq, hp, heq2, ?_⟩
            simp only [finalErr, aborts, upd]
            split <;> rfl
          · rename_i w3 heq2
            right
            generalize env.updateUpgradeDetailedStatus
              (w3.log (Event.returned Op.patchCSP none)).trace u1.1
              ⟨.PoolInstanceUpgrade, .StepCompleted, "Pool instance upgrade was successful",
                ""⟩ ns = u2
            refine ⟨h1, d, w2, p, w3, u2, hd, heq, hp, heq2, ?_⟩
            simp only [finalErr, aborts, upd]
            split <;> rfl

/-- When `preUpgrade` does not return nil, `cspUpgrade` returns its outcome. -/
theorem cspUpgrade_of_pre_fail (env : Env) (cfg : Config) (w : World) (cspName ns : String)
    (h : (preUpgrade env cfg ⟨none, none, none⟩ w cspName ns).out ≠ .returned none) :
    cspUpgrade env cfg w cspName ns =
      ⟨(preUpgrade env cfg ⟨none, none, none⟩ w cspName ns).c.utaskObj,
       (preUpgrade env cfg ⟨none, none, none⟩ w cspName ns).out,
       (preUpgrade env cfg ⟨none, none, none⟩ w cspName ns).w⟩ := by
  simp only [cspUpgrade, if_pos h]

/-- When `preUpgrade` returns nil, `cspUpgrade` returns the outcome of
`poolInstanceUpgarde`. -/
theorem cspUpgrade_of_pre_ok (env : Env) (cfg : Config) (w : World) (cspName ns : String)
    (h : (preUpgrade env cfg ⟨none, none, none⟩ w cspName ns).out = .returned none) :
    cspUpgrade env cfg w cspName ns =
      ⟨(poolInstanceUpgarde env cfg (preUpgrade env cfg ⟨none, none, none⟩ w cspName ns).c
          (preUpgrade env cfg ⟨none, none, none⟩ w cspName ns).w ns).c.utaskObj,
       (poolInstanceUpgarde env cfg (preUpgrade env cfg ⟨none, none, none⟩ w cspName ns).c
          (preUpgrade env cfg ⟨none, none, none⟩ w cspName ns).w ns).out,
       (poolInstanceUpgarde env cfg (preUpgrade env cfg ⟨none, none, none⟩ w cspName ns).c
          (preUpgrade env cfg ⟨none, none, none⟩ w cspName ns).w ns).w⟩ := by
  simp only [cspUpgrade, h, ne_eq, not_true_eq_false, if_false]
  split
  · rfl
  · rename_i h2
    simp only [not_not] at h2
    rw [h2]

/-- Every run of `cspUpgrade` follows one of nine paths.  `g` and `u1`…`u4` are
the answers of the status calls, `f1`…`f4` what the two resolvers and the two
patchers logged; a value that a path does not reach is arbitrary. -/
theorem cspUpgrade_cases (env : Env) (cfg : Config) (w : World) (cspName ns : String) :
    ∃ (g u1 u2 u3 u4 : Option UpgradeTask × Option GoError) (f1 f2 f3 f4 : List Event),
    g = env.getOrCreateUpgradeTask w.trace "cstorPool" cspName ns ∧
    (∀ ev ∈ f1, ev.isFetch = true) ∧ (∀ ev ∈ f2, ev.isFetch = true) ∧
    (∀ ev ∈ f3, ev.isApply = true) ∧ (∀ ev ∈ f4, ev.isApply = true) ∧
    ((aborts cfg g ∧
      (cspUpgrade env cfg w cspName ns).out = .returned g.2 ∧
      (cspUpgrade env cfg w cspName ns).utaskObj = g.1 ∧
      runLog env cfg w cspName ns = [evTask cspName ns g]) ∨
    (¬ aborts cfg g ∧ aborts cfg u1 ∧
      (cspUpgrade env cfg w cspName ns).out = .returned u1.2 ∧
      (cspUpgrade env cfg w cspName ns).utaskObj = u1.1 ∧
      runLog env cfg w cspName ns = preHead cspName ns g u1) ∨
    (¬ aborts cfg g ∧ ¬ aborts cfg u1 ∧ ∃ err Wa Wb,
      getCSPObject env cfg Wa cspName = (.error err, Wb) ∧ Wb.trace = Wa.trace ++ f1 ∧
      (cspUpgrade env cfg w cspName ns).out = .returned (finalErr cfg u2 (some err)) ∧
      (cspUpgrade env cfg w cspName ns).utaskObj = u2.1 ∧
      runLog env cfg w cspName ns = preHead cspName ns g u1 ++ f1 ++
        [.returned .getCSPObject (some err),
         upd u1.1 .PreUpgrade .StepErrored "failed to verify cstor pool"
           (removeColons err.Error) ns u2]) ∨
    (¬ aborts cfg g ∧ ¬ aborts cfg u1 ∧ ∃ p Wa Wb err Wc Wd,
      getCSPObject env cfg Wa cspName = (.ok p, Wb) ∧
      getCSPDeployment env cfg Wc cspName ns = (.error err, Wd) ∧
      (cspUpgrade env cfg w cspName ns).out = .returned (finalErr cfg u2 (some err)) ∧
      (cspUpgrade env cfg w cspName ns).utaskObj = u2.1 ∧
      runLog env cfg w cspName ns = preHead cspName ns g u1 ++ f1 ++
        [.returned .getCSPObject none] ++ f2 ++
        [.returned .getCSPDeployment (some err),
         upd u1.1 .PreUpgrade .StepErrored "failed to verify cstor pool deployment"
           (removeColons err.Error) ns u2]) ∨
    (¬ aborts cfg g ∧ ¬ aborts cfg u1 ∧ aborts cfg u2 ∧ (∃ p d Wa Wb Wc Wd,
      getCSPObject env cfg Wa cspName = (.ok p, Wb) ∧
      getCSPDeployment env cfg Wc cspName ns = (.ok d, Wd)) ∧
      (cspUpgrade env cfg w cspName ns).out = .returned u2.2 ∧
      (cspUpgrade env cfg w cspName ns).utaskObj = u2.1 ∧
      runLog env cfg w cspName ns = preDone cspName ns g u1 f1 f2 u2) ∨
    (¬ aborts cfg g ∧ ¬ aborts cfg u1 ∧ ¬ aborts cfg u2 ∧ aborts cfg u3 ∧ (∃ p d Wa Wb Wc Wd,
      getCSPObject env cfg Wa cspName = (.ok p, Wb) ∧
      getCSPDeployment env cfg Wc cspName ns = (.ok d, Wd)) ∧
      (cspUpgrade env cfg w cspName ns).out = .returned u3.2 ∧
      (cspUpgrade env cfg w cspName ns).utaskObj = u3.1 ∧
      runLog env cfg w cspName ns = preDone cspName ns g u1 f1 f2 u2 ++
        [upd u2.1 .PoolInstanceUpgrade .StepWaiting "" "" ns u3]) ∨
    (¬ aborts cfg g ∧ ¬ aborts cfg u1 ∧ ¬ aborts cfg u2 ∧ ¬ aborts cfg u3 ∧
      ∃ p d Wa Wb Wc Wd err We Wf,
      getCSPObject env cfg Wa cspName = (.ok p, Wb) ∧
      getCSPDeployment env cfg Wc cspName ns = (.ok d, Wd) ∧
      patchCSPDeploy env cfg We d ns = (some err, Wf) ∧ Wf.trace = We.trace ++ f3 ∧
      (cspUpgrade env cfg w cspName ns).out = .returned (finalErr cfg u4 (some err)) ∧
      (cspUpgrade env cfg w cspName ns).utaskObj = u4.1 ∧
      runLog env cfg w cspName ns = preDone cspName ns g u1 f1 f2 u2 ++
        [upd u2.1 .PoolInstanceUpgrade .StepWaiting "" "" ns u3] ++ f3 ++
        [.returned .patchCSPDeploy (some err),
         upd u3.1 .PoolInstanceUpgrade .StepErrored
           "failed to patch cstor pool deployment" (removeColons err.Error) ns u4]) ∨
    (¬ aborts cfg g ∧ ¬ aborts cfg u1 ∧ ¬ aborts cfg u2 ∧ ¬ aborts cfg u3 ∧
      ∃ p d Wa Wb Wc Wd err We Wf Wg Wh,
      getCSPObject env cfg Wa cspName = (.ok p, Wb) ∧
      getCSPDeployment env cfg Wc cspName ns = (.ok d, Wd) ∧
      patchCSPDeploy env cfg We d ns = (none, Wf) ∧ Wf.trace = We.trace ++ f3 ∧
      patchCSP env cfg Wg p = (some err, Wh) ∧ Wh.trace = Wg.trace ++ f4 ∧
      (cspUpgrade env cfg w cspName ns).out = .returned (finalErr cfg u4 (some err)) ∧
      (cspUpgrade env cfg w cspName ns).utaskObj = u4.1 ∧
      runLog env cfg w cspName ns = preDone cspName ns g u1 f1 f2 u2 ++
        [upd u2.1 .PoolInstanceUpgrade .StepWaiting "" "" ns u3] ++ f3 ++
        [.returned .patchCSPDeploy none] ++ f4 ++
        [.returned .patchCSP (some err),
         upd u3.1 .PoolInstanceUpgrade .StepErrored
           "failed to patch cstor pool" (removeColons err.Error) ns u4]) ∨
    (¬ aborts cfg g ∧ ¬ aborts cfg u1 ∧ ¬ aborts cfg u2 ∧ ¬ aborts cfg u3 ∧
      ∃ p d Wa Wb Wc Wd We Wf Wg Wh,
      getCSPObject env cfg Wa cspName = (.ok p, Wb) ∧
      getCSPDeployment env cfg Wc cspName ns = (.ok d, Wd) ∧
      patchCSPDeploy env cfg We d ns = (none, Wf) ∧ Wf.trace = We.trace ++ f3 ∧
      patchCSP env cfg Wg p = (none, Wh) ∧ Wh.trace = Wg.trace ++ f4 ∧
      (cspUpgrade env cfg w cspName ns).out = .returned (finalErr cfg u4 none) ∧
      (cspUpgrade env cfg w cspName ns).utaskObj = u4.1 ∧
      runLog env cfg w cspName ns = preDone cspName ns g u1 f1 f2 u2 ++
        [upd u2.1 .PoolInstanceUpgrade .StepWaiting "" "" ns u3] ++ f3 ++
        [.returned .patchCSPDeploy none] ++ f4 ++
        [.returned .patchCSP none,
         upd u3.1 .PoolInstanceUpgrade .StepCompleted
           "Pool instance upgrade was successful" "" ns u4])) := by
  obtain ⟨g, u1, hg, h⟩ := preUpgrade_cases env cfg ⟨none, none, none⟩ w cspName ns
  have hab : ∀ u : Option UpgradeTask × Option GoError, aborts cfg u →
      Outcome.returned u.2 ≠ Outcome.returned none := by
    intro u hu
    unfold aborts at hu
    simp [hu.1]
  have hne : ∀ (u : Option UpgradeTask × Option GoError) (err : GoError),
      Outcome.returned (finalErr cfg u (some err)) ≠ Outcome.returned none := by
    intro u err
    simp [finalErr_some_ne_none]
  have hnil : ∀ ev ∈ ([] : List Event), ev.isFetch = true := by simp
  have hnil2 : ∀ ev ∈ ([] : List Event), ev.isApply = true := by simp
  let z : Option UpgradeTask × Option GoError := (none, none)
  rcases h with ⟨h0, hp⟩ | ⟨h0, h1, hp⟩ | ⟨h0, h1, err, w2, u2, heq, hp⟩ |
    ⟨h0, h1, p, w2, err, w3, u2, heq, heq2, hp⟩ | ⟨h0, h1, p, w2, d, w3, u2, heq, heq2, hp⟩
  · have hc := cspUpgrade_of_pre_fail env cfg w cspName ns (by rw [hp]; exact hab g h0)
    rw [hp] at hc
    refine ⟨g, u1, z, z, z, [], [], [], [], hg, hnil, hnil, hnil2, hnil2, Or.inl ?_⟩
    refine ⟨h0, by rw [hc], by rw [hc], ?_⟩
    rw [runLog, hc]
    exact eventsSince_of_trace rfl
  · have hc := cspUpgrade_of_pre_fail env cfg w cspName ns (by rw [hp]; exact hab u1 h1)
    rw [hp] at hc
    refine ⟨g, u1, z, z, z, [], [], [], [], hg, hnil, hnil, hnil2, hnil2, Or.inr (Or.inl ?_)⟩
    refine ⟨h0, h1, by rw [hc], by rw [hc], ?_⟩
    rw [runLog, hc]
    exact eventsSince_of_trace (by simp [World.log, preHead])
  · obtain ⟨f1, hf1, hm1⟩ := getCSPObject_frame env cfg
      ((w.log (evTask cspName ns g)).log (upd g.1 .PreUpgrade .StepWaiting "" "" ns u1)) cspName
    rw [heq] at hf1
    have hc := cspUpgrade_of_pre_fail env cfg w cspName ns (by rw [hp]; exact hne u2 err)
    rw [hp] at hc
    refine ⟨g, u1, u2, z, z, f1, [], [], [], hg, hm1, hnil, hnil2, hnil2,
      Or.inr (Or.inr (Or.inl ?_))⟩
    refine ⟨h0, h1, err, _, _, heq, hf1, by rw [hc], by rw [hc], ?_⟩
    rw [runLog, hc]
    exact eventsSince_of_trace (by simp [World.log, preHead] at hf1 ⊢; rw [hf1]; simp)
  · obtain ⟨f1, hf1, hm1⟩ := getCSPObject_frame env cfg
      ((w.log (evTask cspName ns g)).log (upd g.1 .PreUpgrade .StepWaiting "" "" ns u1)) cspName
    rw [heq] at hf1
    obtain ⟨f2, hf2, hm2⟩ := getCSPDeployment_frame env cfg
      (w2.log (.returned .getCSPObject none)) cspName ns
    rw [heq2] at hf2
    have hc := cspUpgrade_of_pre_fail env cfg w cspName ns (by rw [hp]; exact hne u2 err)
    rw [hp] at hc
    refine ⟨g, u1, u2, z, z, f1, f2, [], [], hg, hm1, hm2, hnil2, hnil2,
      Or.inr (Or.inr (Or.inr (Or.inl ?_)))⟩
    refine ⟨h0, h1, p, _, _, err, _, _, heq, heq2, by rw [hc], by rw [hc], ?_⟩
    rw [runLog, hc]
    exact eventsSince_of_trace
      (by simp [World.log, preHead] at hf1 hf2 ⊢; rw [hf2, hf1]; simp)
  · obtain ⟨f1, hf1, hm1⟩ := getCSPObject_frame env cfg
      ((w.log (evTask cspName ns g)).log (upd g.1 .PreUpgrade .StepWaiting "" "" ns u1)) cspName
    rw [heq] at hf1
    obtain ⟨f2, hf2, hm2⟩ := getCSPDeployment_frame env cfg
      (w2.log (.returned .getCSPObject none)) cspName ns
    rw [heq2] at hf2
    have hpre : ((w3.log (.returned .getCSPDeployment none)).log
        (upd u1.1 .PreUpgrade .StepCompleted "Pre-upgrade steps were successful" "" ns u2)).trace
        = w.trace ++ preDone cspName ns g u1 f1 f2 u2 := by
      simp [World.log, preHead, preDone] at hf1 hf2 ⊢; rw [hf2, hf1]; simp
    have hres : ∃ p d Wa Wb Wc Wd, getCSPObject env cfg Wa cspName = (.ok p, Wb) ∧
        getCSPDeployment env cfg Wc cspName ns = (.ok d, Wd) :=
      ⟨p, d, _, _, _, _, heq, heq2⟩
    by_cases h2 : aborts cfg u2
    · rw [finalErr_of_aborts h2] at hp
      have hc := cspUpgrade_of_pre_fail env cfg w cspName ns (by rw [hp]; exact hab u2 h2)
      rw [hp] at hc
      refine ⟨g, u1, u2, z, z, f1, f2, [], [], hg, hm1, hm2, hnil2, hnil2,
        Or.inr (Or.inr (Or.inr (Or.inr (Or.inl ?_))))⟩
      refine ⟨h0, h1, h2, hres, by rw [hc], by rw [hc], ?_⟩
      rw [runLog, hc]
      exact eventsSince_of_trace hpre
    · rw [finalErr_of_not_aborts h2] at hp
      have hc := cspUpgrade_of_pre_ok env cfg w cspName ns (by rw [hp])
      rw [hp] at hc
      simp only [] at hc
      obtain ⟨u3, -, h⟩ := poolInstanceUpgarde_cases env cfg ⟨u2.1, some p, some d⟩
        ((w3.log (.returned .getCSPDeployment none)).log
          (upd u1.1 .PreUpgrade .StepCompleted "Pre-upgrade steps were successful" "" ns u2)) ns
      rcases h with ⟨h3, hq⟩ | ⟨h3, hd, hq⟩ | ⟨h3, d', err, w4, u4, hd, heq3, hq⟩ |
        ⟨h3, d', w4, hd, heq3, hn, hq⟩ | ⟨h3, d', w4, p', err, w5, u4, hd, heq3, hn, heq4, hq⟩ |
        ⟨h3, d', w4, p', w5, u4, hd, heq3, hn, heq4, hq⟩
      · rw [hq] at hc
        refine ⟨g, u1, u2, u3, z, f1, f2, [], [], hg, hm1, hm2, hnil2, hnil2,
          Or.inr (Or.inr (Or.inr (Or.inr (Or.inr (Or.inl ?_)))))⟩
        refine ⟨h0, h1, h2, h3, hres, by rw [hc], by rw [hc], ?_⟩
        rw [runLog, hc]
        exact eventsSince_of_trace (by simp only [World.log] at hpre ⊢; rw [hpre]; simp)
      · simp at hd
      · simp only [Option.some.injEq] at hd
        subst hd
        obtain ⟨f3, hf3, hm3⟩ := patchCSPDeploy_frame env cfg
          (((w3.log (.returned .getCSPDeployment none)).log
            (upd u1.1 .PreUpgrade .StepCompleted "Pre-upgrade steps were successful" "" ns
              u2)).log (upd u2.1 .PoolInstanceUpgrade .StepWaiting "" "" ns u3)) d ns
        rw [heq3] at hf3
        rw [hq] at hc
        refine ⟨g, u1, u2, u3, u4, f1, f2, f3, [], hg, hm1, hm2, hm3, hnil2,
          Or.inr (Or.inr (Or.inr (Or.inr (Or.inr (Or.inr (Or.inl ?_))))))⟩
        refine ⟨h0, h1, h2, h3, p, d, _, _, _, _, err, _, _, heq, heq2, heq3, hf3,
          by rw [hc], by rw [hc], ?_⟩
        rw [runLog, hc]
        exact eventsSince_of_trace
          (by simp only [World.log] at hpre hf3 ⊢; rw [hf3, hpre]; simp)
      · simp at hn
      · simp only [Option.some.injEq] at hd hn
        subst hd
        subst hn
        obtain ⟨f3, hf3, hm3⟩ := patchCSPDeploy_frame env cfg
          (((w3.log (.returned .getCSPDeployment none)).log
            (upd u1.1 .PreUpgrade .StepCompleted "Pre-upgrade steps were successful" "" ns
              u2)).log (upd u2.1 .PoolInstanceUpgrade .StepWaiting "" "" ns u3)) d ns
        rw [heq3] at hf3
        obtain ⟨f4, hf4, hm4⟩ := patchCSP_frame env cfg
          (w4.log (.returned .patchCSPDeploy none)) p
        rw [heq4] at hf4
        rw [hq] at hc
        refine ⟨g, u1, u2, u3, u4, f1, f2, f3, f4, hg, hm1, hm2, hm3, hm4,
          Or.inr (Or.inr (Or.inr (Or.inr (Or.inr (Or.inr (Or.inr (Or.inl ?_)))))))⟩
        refine ⟨h0, h1, h2, h3, p, d, _, _, _, _, err, _, _, _, _, heq, heq2, heq3, hf3,
          heq4, hf4, by rw [hc], by rw [hc], ?_⟩
        rw [runLog, hc]
        exact eventsSince_of_trace
          (by simp only [World.log] at hpre hf3 hf4 ⊢; rw [hf4, hf3, hpre]; simp)
      · simp only [Option.some.injEq] at hd hn
        subst hd
        subst hn
        obtain ⟨f3, hf3, hm3⟩ := patchCSPDeploy_frame env cfg
          (((w3.log (.returned .getCSPDeployment none)).log
            (upd u1.1 .PreUpgrade .StepCompleted "Pre-upgrade steps were successful" "" ns
              u2)).log (upd u2.1 .PoolInstanceUpgrade .StepWaiting "" "" ns u3)) d ns
        rw [heq3] at hf3
        obtain ⟨f4, hf4, hm4⟩ := patchCSP_frame env cfg
          (w4.log (.returned .patchCSPDeploy none)) p
        rw [heq4] at hf4
        rw [hq] at hc
        refine ⟨g, u1, u2, u3, u4, f1, f2, f3, f4, hg, hm1, hm2, hm3, hm4,
          Or.inr (Or.inr (Or.inr (Or.inr (Or.inr (Or.inr (Or.inr (Or.inr ?_)))))))⟩
        refine ⟨h0, h1, h2, h3, p, d, _, _, _, _, _, _, _, _, heq, heq2, heq3, hf3,
          heq4, hf4, by rw [hc], by rw [hc], ?_⟩
        rw [runLog, hc]
        exact eventsSince_of_trace
          (by simp only [World.log] at hpre hf3 hf4 ⊢; rw [hf4, hf3, hpre]; simp)

/-! ## Reading the log -/

theorem statusUpdates_append (a b : List Event) :
    statusUpdates (a ++ b) = statusUpdates a ++ statusUpdates b := by
  induction a with
  | nil => rfl
  | cons e t ih => cases e <;> simp [statusUpdates, ih]

theorem statusUpdates_fetch {f : List Event} (h : ∀ ev ∈ f, ev.isFetch = true) :
    statusUpdates f = [] := by
  induction f with
  | nil => rfl
  | cons e t ih =>
    have he := h e (by simp)
    have ht := ih (fun ev hev => h ev (by simp [hev]))
    cases e <;> simp_all [statusUpdates, Event.isFetch]

theorem statusUpdates_apply {f : List Event} (h : ∀ ev ∈ f, ev.isApply = true) :
    statusUpdates f = [] := by
  induction f with
  | nil => rfl
  | cons e t ih =>
    have he := h e (by simp)
    have ht := ih (fun ev hev => h ev (by simp [hev]))
    cases e <;> simp_all [statusUpdates, Event.isApply]

theorem returned_not_mem_fetch {f : List Event} (h : ∀ ev ∈ f, ev.isFetch = true)
    (op : Op) (e : Option GoError) : Event.returned op e ∉ f := by
  intro hmem
  have := h _ hmem
  simp [Event.isFetch] at this

theorem returned_not_mem_apply {f : List Event} (h : ∀ ev ∈ f, ev.isApply = true)
    (op : Op) (e : Option GoError) : Event.returned op e ∉ f := by
  intro hmem
  have := h _ hmem
  simp [Event.isApply] at this

theorem isApply_false_of_fetch {f : List Event} (h : ∀ ev ∈ f, ev.isFetch = true) :
    ∀ ev ∈ f, ev.isApply = false := by
  intro ev hev
  have := h ev hev
  cases ev <;> simp_all [Event.isFetch, Event.isApply]

theorem isFetch_false_of_apply {f : List Event} (h : ∀ ev ∈ f, ev.isApply = true) :
    ∀ ev ∈ f, ev.isFetch = false := by
  intro ev hev
  have := h ev hev
  cases ev <;> simp_all [Event.isFetch, Event.isApply]

theorem finalErr_some_exists (cfg : Config) (r : Option UpgradeTask × Option GoError)
    (err : GoError) : ∃ e, finalErr cfg r (some err) = some e :=
  Option.ne_none_iff_exists'.mp (finalErr_some_ne_none cfg r err)

theorem aborts_exists {cfg : Config} {r : Option UpgradeTask × Option GoError}
    (h : aborts cfg r) : ∃ e, r.2 = some e :=
  Option.ne_none_iff_exists'.mp h.1

theorem noApply_iff (l : List Event) :
    (∀ ev ∈ l, ev.isApply = false) ↔ l.all (fun ev => !ev.isApply) = true := by
  simp [List.all_eq_true]

theorem noFetch_iff (l : List Event) :
    (∀ ev ∈ l, ev.isFetch = false) ↔ l.all (fun ev => !ev.isFetch) = true := by
  simp [List.all_eq_true]

theorem noApply_of_fetch {f : List Event} (h : ∀ ev ∈ f, ev.isFetch = true) :
    f.all (fun ev => !ev.isApply) = true :=
  (noApply_iff f).mp (isApply_false_of_fetch h)

theorem noFetch_of_apply {f : List Event} (h : ∀ ev ∈ f, ev.isApply = true) :
    f.all (fun ev => !ev.isFetch) = true :=
  (noFetch_iff f).mp (isFetch_false_of_apply h)

theorem recordFlow_append_fetch {f : List Event} (h : ∀ ev ∈ f, ev.isFetch = true)
    (cur : Option UpgradeTask) (rest : List Event) :
    recordFlow cur (f ++ rest) = recordFlow cur rest := by
  induction f with
  | nil => rfl
  | cons e t ih =>
    have he := h e (by simp)
    have ht := ih (fun ev hev => h ev (by simp [hev]))
    cases e <;> simp_all [recordFlow, Event.isFetch]

theorem recordFlow_append_apply {f : List Event} (h : ∀ ev ∈ f, ev.isApply = true)
    (cur : Option UpgradeTask) (rest : List Event) :
    recordFlow cur (f ++ rest) = recordFlow cur rest := by
  induction f with
  | nil => rfl
  | cons e t ih =>
    have he := h e (by simp)
    have ht := ih (fun ev hev => h ev (by simp [hev]))
    cases e <;> simp_all [recordFlow, Event.isApply]

theorem lastRecord_append_fetch {f : List Event} (h : ∀ ev ∈ f, ev.isFetch = true)
    (cur : Option UpgradeTask) (rest : List Event) :
    lastRecord cur (f ++ rest) = lastRecord cur rest := by
  induction f with
  | nil => rfl
  | cons e t ih =>
    have he := h e (by simp)
    have ht := ih (fun ev hev => h ev (by simp [hev]))
    cases e <;> simp_all [lastRecord, Event.isFetch]

theorem lastRecord_append_apply {f : List Event} (h : ∀ ev ∈ f, ev.isApply = true)
    (cur : Option UpgradeTask) (rest : List Event) :
    lastRecord cur (f ++ rest) = lastRecord cur rest := by
  induction f with
  | nil => rfl
  | cons e t ih =>
    have he := h e (by simp)
    have ht := ih (fun ev hev => h ev (by simp [hev]))
    cases e <;> simp_all [lastRecord, Event.isApply]

theorem noOpFailure_of_fetch {f : List Event} (h : ∀ ev ∈ f, ev.isFetch = true) :
    f.all (fun ev => !ev.isOpFailure) = true := by
  rw [List.all_eq_true]
  intro ev hev
  have := h ev hev
  cases ev <;> simp_all [Event.isFetch, Event.isOpFailure]

theorem noOpFailure_of_apply {f : List Event} (h : ∀ ev ∈ f, ev.isApply = true) :
    f.all (fun ev => !ev.isOpFailure) = true := by
  rw [List.all_eq_true]
  intro ev hev
  have := h ev hev
  cases ev <;> simp_all [Event.isApply, Event.isOpFailure]

theorem noOpFailure_iff (l : List Event) :
    (∀ ev ∈ l, ev.isOpFailure = false) ↔ l.all (fun ev => !ev.isOpFailure) = true := by
  simp [List.all_eq_true]

/-! ## What the resolvers and patchers return -/

/-- The empty pool name is rejected before any fetch. -/
theorem getCSPObject_empty (env : Env) (cfg : Config) (w : World) :
    getCSPObject env cfg w "" = (.error (Errorf "missing csp name"), w) := by
  simp [getCSPObject]

/-- The object `getCSPObject` returns is the one the client fetched. -/
theorem getCSPObject_ok {env : Env} {cfg : Config} {w w2 : World} {n : String}
    {p : CStorPool} (h : getCSPObject env cfg w n = (.ok p, w2)) :
    env.cspClientGet w.trace n = .ok p := by
  unfold getCSPObject at h
  split at h
  · simp at h
  · split at h
    · simp at h
    · simp only [] at h
      split at h
      · simp at h
      · rename_i heq _
        simp only [Prod.mk.injEq, Except.ok.injEq] at h
        rw [heq, h.1]

/-- The deployment `getCSPDeployment` returns is the one the lookup found. -/
theorem getCSPDeployment_ok {env : Env} {cfg : Config} {w w2 : World} {n ns : String}
    {d : Deployment} (h : getCSPDeployment env cfg w n ns = (.ok d, w2)) :
    env.getDeployment w.trace ("openebs.io/cstor-pool=" ++ n) ns = .ok d := by
  unfold getCSPDeployment at h
  split at h
  · simp at h
  · simp only [] at h
    split at h
    · simp at h
    · split at h
      · simp at h
      · split at h
        · simp at h
        · split at h
          · simp at h
          · rename_i heq _ _ _ _ _
            simp only [Prod.mk.injEq, Except.ok.injEq] at h
            rw [heq, h.1]

/-- A deployment that is not at the current version is left alone. -/
theorem patchCSPDeploy_skip (env : Env) (cfg : Config) (w : World) (d : Deployment)
    (ns : String) (h : labelOf d.Labels "openebs.io/version" ≠ cfg.currentVersion) :
    patchCSPDeploy env cfg w d ns = (none, w) := by
  simp only [patchCSPDeploy, if_neg h]

/-- A pool that is not at the current version is left alone. -/
theorem patchCSP_skip (env : Env) (cfg : Config) (w : World) (p : CStorPool)
    (h : labelOf p.Labels "openebs.io/version" ≠ cfg.currentVersion) :
    patchCSP env cfg w p = (none, w) := by
  simp only [patchCSP, if_neg h]

/-- The sanitized text has no colon left. -/
theorem removeColons_no_colon (s : String) : ':' ∉ (removeColons s).data := by
  simp [removeColons, List.mem_filter]

/-- The error of `getCSPObject` for a pool labelled 2.0.0 in the upgrade 1.0.0 to
1.1.0. -/
theorem getCSPObject_error_of_label {env : Env} {cfg : Config} {w w2 : World} {n : String}
    {err : GoError} (hn : n ≠ "")
    (hpool : ∀ h, ∃ p, env.cspClientGet h n = .ok p ∧
      labelOf p.Labels "openebs.io/version" = "2.0.0")
    (hcur : cfg.currentVersion = "1.0.0") (hup : cfg.upgradeVersion = "1.1.0")
    (h : getCSPObject env cfg w n = (.error err, w2)) :
    err = Errorf "cstor pool version 2.0.0 is neither 1.0.0 nor 1.1.0" := by
  obtain ⟨p, hp, hl⟩ := hpool w.trace
  have hv : labelOf p.Labels "openebs.io/version" ≠ cfg.currentVersion ∧
      labelOf p.Labels "openebs.io/version" ≠ cfg.upgradeVersion := by
    rw [hl, hcur, hup]; decide
  simp only [getCSPObject, if_neg hn, hp, if_pos hv, Prod.mk.injEq, Except.error.injEq] at h
  rw [← h.1, hl, hcur, hup]
  decide

/-- When one of the three image lookups fails, `getCSPDeployPatchDetails` returns
the error of the first lookup that fails, in the order of `containerRoles`. -/
theorem getCSPDeployPatchDetails_error (env : Env) (cfg : Config) (d : Deployment)
    (hfail : ∃ name ∈ containerRoles, ∃ e, env.getBaseImage d name = .error e) :
    ∃ pre name post e, containerRoles = pre ++ name :: post ∧
      (∀ n ∈ pre, ∃ img, env.getBaseImage d n = .ok img) ∧
      env.getBaseImage d name = .error e ∧
      getCSPDeployPatchDetails env cfg d = .error e := by
  cases h1 : env.getBaseImage d "cstor-pool" with
  | error e =>
    exact ⟨[], "cstor-pool", ["cstor-pool-mgmt", "maya-exporter"], e, rfl, by simp, h1,
      by simp [getCSPDeployPatchDetails, h1]⟩
  | ok i1 =>
    cases h2 : env.getBaseImage d "cstor-pool-mgmt" with
    | error e =>
      exact ⟨["cstor-pool"], "cstor-pool-mgmt", ["maya-exporter"], e, rfl,
        by simp [h1], h2, by simp [getCSPDeployPatchDetails, h1, h2]⟩
    | ok i2 =>
      cases h3 : env.getBaseImage d "maya-exporter" with
      | error e =>
        exact ⟨["cstor-pool", "cstor-pool-mgmt"], "maya-exporter", [], e, rfl,
          by simp [h1, h2], h3, by simp [getCSPDeployPatchDetails, h1, h2, h3]⟩
      | ok i3 =>
        obtain ⟨name, hmem, e, he⟩ := hfail
        simp only [containerRoles, List.mem_cons, List.mem_singleton, List.not_mem_nil,
          or_false] at hmem
        rcases hmem with rfl | rfl | rfl
        · rw [h1] at he; simp at he
        · rw [h2] at he; simp at he
        · rw [h3] at he; simp at he

/-! # The claims -/

/-! ## C1: the version gate of the two resolvers -/

/-- C1: for a non-empty pool name whose fetch succeeds with object `cspObj`,
`getCSPObject` returns an error when the `openebs.io/version` label is neither
`currentVersion` nor `upgradeVersion`, and returns `cspObj` with a nil error when
the label is one of them.  For a non-empty namespace, a successful lookup and a
non-empty deployment name, `getCSPDeployment` returns an error whenever the
version that `getOpenEBSVersion` reports is neither of the two (and the
deployment itself when it is one of them). -/
theorem version_gate (env : Env) (cfg : Config) (w : World) (cspName : String) :
    (∀ cspObj : CStorPool, cspName ≠ "" → env.cspClientGet w.trace cspName = .ok cspObj →
      (labelOf cspObj.Labels "openebs.io/version" ≠ cfg.currentVersion ∧
        labelOf cspObj.Labels "openebs.io/version" ≠ cfg.upgradeVersion →
          ∃ e, (getCSPObject env cfg w cspName).1 = .error e) ∧
      (labelOf cspObj.Labels "openebs.io/version" = cfg.currentVersion ∨
        labelOf cspObj.Labels "openebs.io/version" = cfg.upgradeVersion →
          (getCSPObject env cfg w cspName).1 = .ok cspObj)) ∧
    (∀ (openebsNamespace : String) (d : Deployment) (v : String), openebsNamespace ≠ "" →
      env.getDeployment w.trace ("openebs.io/cstor-pool=" ++ cspName) openebsNamespace = .ok d →
      d.Name ≠ "" → env.getOpenEBSVersion d = .ok v →
      (v ≠ cfg.currentVersion ∧ v ≠ cfg.upgradeVersion →
          ∃ e, (getCSPDeployment env cfg w cspName openebsNamespace).1 = .error e) ∧
      (v = cfg.currentVersion ∨ v = cfg.upgradeVersion →
          (getCSPDeployment env cfg w cspName openebsNamespace).1 = .ok d)) := by
  refine ⟨?_, ?_⟩
  · intro cspObj hname hget
    refine ⟨?_, ?_⟩
    · intro hv
      simp only [getCSPObject, if_neg hname, hget, if_pos hv]
      exact ⟨_, rfl⟩
    · intro hv
      have hv2 : ¬ (labelOf cspObj.Labels "openebs.io/version" ≠ cfg.currentVersion ∧
          labelOf cspObj.Labels "openebs.io/version" ≠ cfg.upgradeVersion) := by
        rcases hv with h | h <;> simp [h]
      simp only [getCSPObject, if_neg hname, hget, if_neg hv2]
  · intro ns d v hns hdep hdname hver
    refine ⟨?_, ?_⟩
    · intro hv
      simp only [getCSPDeployment, if_neg hns, hdep, if_neg hdname, hver, if_pos hv]
      exact ⟨_, rfl⟩
    · intro hv
      have hv2 : ¬ (v ≠ cfg.currentVersion ∧ v ≠ cfg.upgradeVersion) := by
        rcases hv with h | h <;> simp [h]
      simp only [getCSPDeployment, if_neg hns, hdep, if_neg hdname, hver, if_neg hv2]

/-- C1 at sample clusters: a pool labelled 2.0.0 is refused, a pool labelled
1.1.0 is returned, a deployment reporting 0.9.0 is refused. -/
theorem version_gate_witness :
    (∃ e, (getCSPObject (sampleEnv (samplePool "2.0.0") (sampleDeploy "0.9.0" threeContainers)
        false (fun _ => false)) cfgSoft ⟨[], ""⟩ "pool1").1 = .error e) ∧
    (getCSPObject (sampleEnv (samplePool "1.1.0") (sampleDeploy "1.0.0" threeContainers)
        false (fun _ => false)) cfgSoft ⟨[], ""⟩ "pool1").1 = .ok (samplePool "1.1.0") ∧
    (∃ e, (getCSPDeployment (sampleEnv (samplePool "2.0.0")
        (sampleDeploy "0.9.0" threeContainers) false (fun _ => false)) cfgSoft ⟨[], ""⟩
        "pool1" "openebs").1 = .error e) :=
  ⟨((version_gate _ cfgSoft ⟨[], ""⟩ "pool1").1 (samplePool "2.0.0") (by decide) rfl).1
      (by decide),
   ((version_gate _ cfgSoft ⟨[], ""⟩ "pool1").1 (samplePool "1.1.0") (by decide) rfl).2
      (by decide),
   ((version_gate _ cfgSoft ⟨[], ""⟩ "pool1").2 "openebs"
      (sampleDeploy "0.9.0" threeContainers) "0.9.0" (by decide) rfl (by decide) rfl).1
      (by decide)⟩

/-! ## C2: the second step is not attempted after a failed first step -/

/-- C2: in every run of `cspUpgrade` in which a status update with step
PreUpgrade and phase Errored is issued, `cspUpgrade` returns a non-nil error,
no status update with step PoolInstanceUpgrade is issued, no patch is rendered
or applied on a collaborator, and neither `patchCSPDeploy` nor `patchCSP` is
called.  The strictness flag and the answers of the status collaborator are
arbitrary. -/
theorem order_invariant (env : Env) (cfg : Config) (w : World) (cspName ns : String)
    (st : UpgradeDetailedStatuses)
    (hmem : st ∈ statusUpdates (runLog env cfg w cspName ns))
    (hstep : st.Step = .PreUpgrade) (hphase : st.Phase = .StepErrored) :
    (∃ e, (cspUpgrade env cfg w cspName ns).out = .returned (some e)) ∧
    (∀ s ∈ statusUpdates (runLog env cfg w cspName ns), s.Step ≠ .PoolInstanceUpgrade) ∧
    (∀ ev ∈ runLog env cfg w cspName ns, ev.isApply = false) ∧
    (∀ err, Event.returned .patchCSPDeploy err ∉ runLog env cfg w cspName ns ∧
      Event.returned .patchCSP err ∉ runLog env cfg w cspName ns) := by
  obtain ⟨g, u1, u2, u3, u4, f1, f2, f3, f4, -, hm1, hm2, hm3, hm4, h⟩ :=
    cspUpgrade_cases env cfg w cspName ns
  have s1 := statusUpdates_fetch hm1
  have s2 := statusUpdates_fetch hm2
  have s3 := statusUpdates_apply hm3
  have s4 := statusUpdates_apply hm4
  have a1 := noApply_of_fetch hm1
  have a2 := noApply_of_fetch hm2
  have r1 := returned_not_mem_fetch hm1
  have r2 := returned_not_mem_fetch hm2
  rw [noApply_iff]
  rcases h with ⟨h0, ho, -, hl⟩ | ⟨h0, h1, ho, -, hl⟩ |
    ⟨h0, h1, err, Wa, Wb, -, -, ho, -, hl⟩ |
    ⟨h0, h1, p, Wa, Wb, err, Wc, Wd, -, -, ho, -, hl⟩ |
    ⟨h0, h1, h2, -, ho, -, hl⟩ | ⟨h0, h1, h2, h3, -, ho, -, hl⟩ |
    ⟨h0, h1, h2, h3, p, d, Wa, Wb, Wc, Wd, err, We, Wf, -, -, -, -, ho, -, hl⟩ |
    ⟨h0, h1, h2, h3, p, d, Wa, Wb, Wc, Wd, err, We, Wf, Wg, Wh, -, -, -, -, -, -, ho, -, hl⟩ |
    ⟨h0, h1, h2, h3, p, d, Wa, Wb, Wc, Wd, We, Wf, Wg, Wh, -, -, -, -, -, -, ho, -, hl⟩
  · rw [hl] at hmem
    simp [statusUpdates, evTask] at hmem
  · rw [hl] at hmem
    simp [statusUpdates, preHead, evTask, upd] at hmem
    simp [hmem] at hphase
  · rw [hl, ho]
    obtain ⟨e, he⟩ := finalErr_some_exists cfg u2 err
    refine ⟨⟨e, by rw [he]⟩, ?_, ?_, ?_⟩
    · simp [statusUpdates_append, s1, statusUpdates, preHead, evTask, upd]
    · simp only [preHead, evTask, upd, List.all_append, List.all_cons, List.all_nil, a1]
      rfl
    · simp [preHead, evTask, upd, r1]
  · rw [hl, ho]
    obtain ⟨e, he⟩ := finalErr_some_exists cfg u2 err
    refine ⟨⟨e, by rw [he]⟩, ?_, ?_, ?_⟩
    · simp [statusUpdates_append, s1, s2, statusUpdates, preHead, evTask, upd]
    · simp only [preHead, evTask, upd, List.all_append, List.all_cons, List.all_nil, a1, a2]
      rfl
    · simp [preHead, evTask, upd, r1, r2]
  all_goals
    exfalso
    rw [hl] at hmem
    simp [statusUpdates_append, s1, s2, s3, s4, statusUpdates, preDone, preHead, evTask, upd]
      at hmem
    casesm* _ ∨ _ <;> simp_all

/-- C2 at a sample cluster whose pool is labelled 2.0.0. -/
theorem order_invariant_witness :
    (∃ e, (cspUpgrade (sampleEnv (samplePool "2.0.0") (sampleDeploy "1.0.0" threeContainers)
        false (fun _ => false)) cfgSoft ⟨[], ""⟩ "pool1" "openebs").out =
        .returned (some e)) ∧
    (∀ s ∈ statusUpdates (runLog (sampleEnv (samplePool "2.0.0")
        (sampleDeploy "1.0.0" threeContainers) false (fun _ => false)) cfgSoft ⟨[], ""⟩
        "pool1" "openebs"), s.Step ≠ .PoolInstanceUpgrade) ∧
    (∀ ev ∈ runLog (sampleEnv (samplePool "2.0.0") (sampleDeploy "1.0.0" threeContainers)
        false (fun _ => false)) cfgSoft ⟨[], ""⟩ "pool1" "openebs", ev.isApply = false) ∧
    (∀ err, Event.returned .patchCSPDeploy err ∉ runLog (sampleEnv (samplePool "2.0.0")
        (sampleDeploy "1.0.0" threeContainers) false (fun _ => false)) cfgSoft ⟨[], ""⟩
        "pool1" "openebs" ∧
      Event.returned .patchCSP err ∉ runLog (sampleEnv (samplePool "2.0.0")
        (sampleDeploy "1.0.0" threeContainers) false (fun _ => false)) cfgSoft ⟨[], ""⟩
        "pool1" "openebs") :=
  order_invariant _ cfgSoft ⟨[], ""⟩ "pool1" "openebs"
    ⟨.PreUpgrade, .StepErrored, "failed to verify cstor pool",
      "cstor pool version 2.0.0 is neither 1.0.0 nor 1.1.0"⟩ (by decide) rfl rfl

/-! ## C3: an upgraded resource is not patched again -/

/-- C3 fails when the target version equals the current version: with both set
to 1.1.0, `patchCSPDeploy` renders and applies the deployment patch to a
deployment already labelled 1.1.0, and `patchCSP` renders and applies the pool
patch to a pool already labelled 1.1.0. -/
theorem equal_versions_patch_again :
    labelOf (sampleDeploy "1.1.0" threeContainers).Labels "openebs.io/version" =
      cfgSame.upgradeVersion ∧
    patchCSPDeploy (sampleEnv (samplePool "1.1.0") (sampleDeploy "1.1.0" threeContainers)
        false (fun _ => false)) cfgSame ⟨[], ""⟩ (sampleDeploy "1.1.0" threeContainers)
        "openebs" =
      (none, ⟨[.templateExecute "cspDeployPatch"
          (.details ⟨"1.1.0", "1.1.0", "openebs/cstor-pool", "openebs/cstor-pool-mgmt",
            "openebs/m-exporter"⟩),
        .patchDelpoyment "pool1-deploy" "openebs" "patch for cspDeployPatch"], ""⟩) ∧
    labelOf (samplePool "1.1.0").Labels "openebs.io/version" = cfgSame.upgradeVersion ∧
    patchCSP (sampleEnv (samplePool "1.1.0") (sampleDeploy "1.1.0" threeContainers)
        false (fun _ => false)) cfgSame ⟨[], ""⟩ (samplePool "1.1.0") =
      (none, ⟨[.templateExecute "cspPatch" (.version "1.1.0"),
        .cspClientPatch "pool1" "patch for cspPatch"], ""⟩) := by
  refine ⟨by decide, by decide, by decide, by decide⟩

/-- C3 as the code has it: when the target version differs from the current
version, `patchCSPDeploy` on a deployment whose `openebs.io/version` label
equals the target version returns nil and leaves the world untouched (nothing
rendered, no collaborator called), and so does `patchCSP` on such a pool.
Consequently a run of `cspUpgrade` against a cluster that only serves objects
labelled with the target version renders and applies no patch. -/
theorem patch_idempotent (env : Env) (cfg : Config) (w : World)
    (hne : cfg.upgradeVersion ≠ cfg.currentVersion) :
    (∀ (d : Deployment) (ns : String),
      labelOf d.Labels "openebs.io/version" = cfg.upgradeVersion →
        patchCSPDeploy env cfg w d ns = (none, w)) ∧
    (∀ p : CStorPool, labelOf p.Labels "openebs.io/version" = cfg.upgradeVersion →
        patchCSP env cfg w p = (none, w)) ∧
    (∀ cspName ns : String,
      (∀ h n p, env.cspClientGet h n = .ok p →
        labelOf p.Labels "openebs.io/version" = cfg.upgradeVersion) →
      (∀ h l n d, env.getDeployment h l n = .ok d →
        labelOf d.Labels "openebs.io/version" = cfg.upgradeVersion) →
      ∀ ev ∈ runLog env cfg w cspName ns, ev.isApply = false) := by
  refine ⟨?_, ?_, ?_⟩
  · intro d ns hd
    exact patchCSPDeploy_skip env cfg w d ns (by rw [hd]; exact hne)
  · intro p hp
    exact patchCSP_skip env cfg w p (by rw [hp]; exact hne)
  · intro cspName ns hpool hdep
    obtain ⟨g, u1, u2, u3, u4, f1, f2, f3, f4, -, hm1, hm2, hm3, hm4, h⟩ :=
      cspUpgrade_cases env cfg w cspName ns
    have a1 := noApply_of_fetch hm1
    have a2 := noApply_of_fetch hm2
    have hskipD : ∀ (d : Deployment) (Wc Wd We : World),
        getCSPDeployment env cfg Wc cspName ns = (.ok d, Wd) →
        patchCSPDeploy env cfg We d ns = (none, We) := by
      intro d Wc Wd We hgd
      exact patchCSPDeploy_skip env cfg We d ns
        (by rw [hdep _ _ _ _ (getCSPDeployment_ok hgd)]; exact hne)
    have hskipP : ∀ (p : CStorPool) (Wa Wb Wg : World),
        getCSPObject env cfg Wa cspName = (.ok p, Wb) →
        patchCSP env cfg Wg p = (none, Wg) := by
      intro p Wa Wb Wg hgo
      exact patchCSP_skip env cfg Wg p (by rw [hpool _ _ _ (getCSPObject_ok hgo)]; exact hne)
    rw [noApply_iff]
    rcases h with ⟨h0, ho, -, hl⟩ | ⟨h0, h1, ho, -, hl⟩ |
      ⟨h0, h1, err, Wa, Wb, hgo, hfr, ho, -, hl⟩ |
      ⟨h0, h1, p, Wa, Wb, err, Wc, Wd, hgo, -, ho, -, hl⟩ |
      ⟨h0, h1, h2, -, ho, -, hl⟩ |
      ⟨h0, h1, h2, h3, -, ho, -, hl⟩ |
      ⟨h0, h1, h2, h3, p, d, Wa, Wb, Wc, Wd, err, We, Wf, hgo, hgd, hpd, hf3, ho, -, hl⟩ |
      ⟨h0, h1, h2, h3, p, d, Wa, Wb, Wc, Wd, err, We, Wf, Wg, Wh, hgo, hgd, hpd, hf3, hpp,
        hf4, ho, -, hl⟩ |
      ⟨h0, h1, h2, h3, p, d, Wa, Wb, Wc, Wd, We, Wf, Wg, Wh, hgo, hgd, hpd, hf3, hpp, hf4,
        ho, -, hl⟩
    · rw [hl]; rfl
    · rw [hl]; rfl
    · rw [hl]
      simp only [preHead, List.all_append, List.all_cons, List.all_nil, a1]
      rfl
    · rw [hl]
      simp only [preHead, List.all_append, List.all_cons, List.all_nil, a1, a2]
      rfl
    · rw [hl]
      simp only [preDone, preHead, List.all_append, List.all_cons, List.all_nil, a1, a2]
      rfl
    · rw [hl]
      simp only [preDone, preHead, List.all_append, List.all_cons, List.all_nil, a1, a2]
      rfl
    · rw [hskipD d Wc Wd We hgd] at hpd
      simp at hpd
    · rw [hskipP p Wa Wb Wg hgo] at hpp
      simp at hpp
    · rw [hskipD d Wc Wd We hgd] at hpd
      rw [hskipP p Wa Wb Wg hgo] at hpp
      simp only [Prod.mk.injEq, true_and] at hpd hpp
      subst hpd
      subst hpp
      have e3 : f3 = [] := by simpa using hf3
      have e4 : f4 = [] := by simpa using hf4
      subst e3
      subst e4
      rw [hl]
      simp only [preDone, preHead, List.all_append, List.all_cons, List.all_nil, a1, a2]
      rfl

/-- C3 (amended) at the upgrade 1.0.0 to 1.1.0 and a sample cluster whose pool
and deployment are labelled 1.1.0. -/
theorem patch_idempotent_witness :
    patchCSPDeploy (sampleEnv (samplePool "1.1.0") (sampleDeploy "1.1.0" threeContainers)
        false (fun _ => false)) cfgSoft ⟨[], ""⟩ (sampleDeploy "1.1.0" threeContainers)
        "openebs" = (none, ⟨[], ""⟩) ∧
    patchCSP (sampleEnv (samplePool "1.1.0") (sampleDeploy "1.1.0" threeContainers)
        false (fun _ => false)) cfgSoft ⟨[], ""⟩ (samplePool "1.1.0") = (none, ⟨[], ""⟩) ∧
    ∀ ev ∈ runLog (sampleEnv (samplePool "1.1.0") (sampleDeploy "1.1.0" threeContainers)
        false (fun _ => false)) cfgSoft ⟨[], ""⟩ "pool1" "openebs", ev.isApply = false :=
  ⟨(patch_idempotent _ cfgSoft ⟨[], ""⟩ (by decide)).1 _ "openebs" rfl,
   (patch_idempotent _ cfgSoft ⟨[], ""⟩ (by decide)).2.1 _ rfl,
   (patch_idempotent _ cfgSoft ⟨[], ""⟩ (by decide)).2.2 "pool1" "openebs"
     (by intro h n p hp; simp only [sampleEnv, Except.ok.injEq] at hp; rw [← hp]; rfl)
     (by intro h l n d hd; simp only [sampleEnv, Except.ok.injEq] at hd; rw [← hd]; rfl)⟩

/-! ## C4: soft and strict status failures -/

/-- C4: with the strictness flag off, a run in which no resolution and no patch
operation fails returns a nil error, whatever the status collaborator answers
(in particular when every status call errors).  With the flag on, if
`getOrCreateUpgradeTask` errors with `e`, `cspUpgrade` returns `e` and the
whole log of the run is that one call: no resolution, no patch. -/
theorem soft_vs_strict (env : Env) (cfg : Config) (w : World) (cspName ns : String) :
    (cfg.isENVPresent = false →
      (∀ ev ∈ runLog env cfg w cspName ns, ev.isOpFailure = false) →
      (cspUpgrade env cfg w cspName ns).out = .returned none) ∧
    (cfg.isENVPresent = true → ∀ e : GoError,
      (env.getOrCreateUpgradeTask w.trace "cstorPool" cspName ns).2 = some e →
      (cspUpgrade env cfg w cspName ns).out = .returned (some e) ∧
      runLog env cfg w cspName ns =
        [.getOrCreateUpgradeTask "cstorPool" cspName ns
          (env.getOrCreateUpgradeTask w.trace "cstorPool" cspName ns).1 (some e)]) := by
  obtain ⟨g, u1, u2, u3, u4, f1, f2, f3, f4, hg, hm1, hm2, hm3, hm4, h⟩ :=
    cspUpgrade_cases env cfg w cspName ns
  refine ⟨?_, ?_⟩
  · intro hsoft hnofail
    have hna : ∀ u : Option UpgradeTask × Option GoError, ¬ aborts cfg u := by
      intro u hu
      have := hu.2
      rw [hsoft] at this
      exact Bool.false_ne_true this
    rw [noOpFailure_iff] at hnofail
    rcases h with ⟨h0, ho, -, hl⟩ | ⟨h0, h1, ho, -, hl⟩ |
      ⟨h0, h1, err, Wa, Wb, -, -, ho, -, hl⟩ |
      ⟨h0, h1, p, Wa, Wb, err, Wc, Wd, -, -, ho, -, hl⟩ |
      ⟨h0, h1, h2, -, ho, -, hl⟩ |
      ⟨h0, h1, h2, h3, -, ho, -, hl⟩ |
      ⟨h0, h1, h2, h3, p, d, Wa, Wb, Wc, Wd, err, We, Wf, -, -, -, -, ho, -, hl⟩ |
      ⟨h0, h1, h2, h3, p, d, Wa, Wb, Wc, Wd, err, We, Wf, Wg, Wh, -, -, -, -, -, -, ho, -, hl⟩ |
      ⟨h0, h1, h2, h3, p, d, Wa, Wb, Wc, Wd, We, Wf, Wg, Wh, -, -, -, -, -, -, ho, -, hl⟩
    · exact absurd h0 (hna g)
    · exact absurd h1 (hna u1)
    · rw [hl] at hnofail
      simp [Event.isOpFailure] at hnofail
    · rw [hl] at hnofail
      simp [Event.isOpFailure] at hnofail
    · exact absurd h2 (hna u2)
    · exact absurd h3 (hna u3)
    · rw [hl] at hnofail
      simp [Event.isOpFailure] at hnofail
    · rw [hl] at hnofail
      simp [Event.isOpFailure] at hnofail
    · rw [ho, finalErr_of_not_aborts (hna u4)]
  · intro hstrict e he
    have hag : aborts cfg g := by
      rw [hg]
      exact ⟨by rw [he]; simp, hstrict⟩
    rcases h with ⟨h0, ho, -, hl⟩ | ⟨h0, -⟩ | ⟨h0, -⟩ | ⟨h0, -⟩ | ⟨h0, -⟩ | ⟨h0, -⟩ |
      ⟨h0, -⟩ | ⟨h0, -⟩ | ⟨h0, -⟩
    · rw [ho, hl, evTask, hg, he]
      exact ⟨rfl, rfl⟩
    all_goals exact absurd hag h0

/-- C4 at a sample cluster whose status collaborator fails on every call. -/
theorem soft_vs_strict_witness :
    (cspUpgrade (sampleEnv (samplePool "1.0.0") (sampleDeploy "1.0.0" threeContainers)
        true (fun _ => true)) cfgSoft ⟨[], ""⟩ "pool1" "openebs").out = .returned none ∧
    ((cspUpgrade (sampleEnv (samplePool "1.0.0") (sampleDeploy "1.0.0" threeContainers)
        true (fun _ => true)) cfgStrict ⟨[], ""⟩ "pool1" "openebs").out =
        .returned (some ⟨"failed to create upgradetask"⟩) ∧
      runLog (sampleEnv (samplePool "1.0.0") (sampleDeploy "1.0.0" threeContainers)
        true (fun _ => true)) cfgStrict ⟨[], ""⟩ "pool1" "openebs" =
        [.getOrCreateUpgradeTask "cstorPool" "pool1" "openebs" none
          (some ⟨"failed to create upgradetask"⟩)]) :=
  ⟨(soft_vs_strict _ cfgSoft ⟨[], ""⟩ "pool1" "openebs").1 rfl (by decide),
   (soft_vs_strict _ cfgStrict ⟨[], ""⟩ "pool1" "openebs").2 rfl _ rfl⟩

/-! ## C5: which error a failed run returns -/

/-- C5 fails in strict mode: the pool is labelled 2.0.0, the first two status
calls succeed, `getCSPObject` is the first operation to fail, the Errored write
then fails, and `cspUpgrade` returns the error of that write, not the error of
`getCSPObject`. -/
theorem strict_status_error_hides_fatal_error :
    runLog (sampleEnv (samplePool "2.0.0") (sampleDeploy "1.0.0" threeContainers) false
        (fun ph => ph == .StepErrored)) cfgStrict ⟨[], ""⟩ "pool1" "openebs" =
      [.getOrCreateUpgradeTask "cstorPool" "pool1" "openebs" (some sampleTask) none,
       .updateUpgradeDetailedStatus (some sampleTask) ⟨.PreUpgrade, .StepWaiting, "", ""⟩
         "openebs"
         (some { sampleTask with Statuses := [⟨.PreUpgrade, .StepWaiting, "", ""⟩] }) none,
       .cspClientGet "pool1",
       .returned .getCSPObject
         (some ⟨"cstor pool version 2.0.0 is neither 1.0.0 nor 1.1.0"⟩),
       .updateUpgradeDetailedStatus
         (some { sampleTask with Statuses := [⟨.PreUpgrade, .StepWaiting, "", ""⟩] })
         ⟨.PreUpgrade, .StepErrored, "failed to verify cstor pool",
           "cstor pool version 2.0.0 is neither 1.0.0 nor 1.1.0"⟩
         "openebs" none (some ⟨"failed to update upgradetask"⟩)] ∧
    (cspUpgrade (sampleEnv (samplePool "2.0.0") (sampleDeploy "1.0.0" threeContainers) false
        (fun ph => ph == .StepErrored)) cfgStrict ⟨[], ""⟩ "pool1" "openebs").out =
      .returned (some ⟨"failed to update upgradetask"⟩) := by
  decide

/-- C5 as the code has it: in a run in which a resolution or patch operation
fails with `e`, an Errored status write follows; `cspUpgrade` returns the
error of that write when the write fails and the strictness flag is on, and
returns `e` otherwise (flag off, or the write succeeded). -/
theorem first_fatal_error (env : Env) (cfg : Config) (w : World) (cspName ns : String)
    (op : Op) (e : GoError)
    (hfail : Event.returned op (some e) ∈ runLog env cfg w cspName ns) :
    ∃ obj st ns2 res uerr,
      Event.updateUpgradeDetailedStatus obj st ns2 res uerr ∈ runLog env cfg w cspName ns ∧
      st.Phase = .StepErrored ∧
      (cspUpgrade env cfg w cspName ns).out =
        .returned (if uerr ≠ none ∧ cfg.isENVPresent = true then uerr else some e) ∧
      (cfg.isENVPresent = false ∨ uerr = none →
        (cspUpgrade env cfg w cspName ns).out = .returned (some e)) := by
  obtain ⟨g, u1, u2, u3, u4, f1, f2, f3, f4, -, hm1, hm2, hm3, hm4, h⟩ :=
    cspUpgrade_cases env cfg w cspName ns
  have r1 := returned_not_mem_fetch hm1
  have r2 := returned_not_mem_fetch hm2
  have r3 := returned_not_mem_apply hm3
  have r4 := returned_not_mem_apply hm4
  have hfin : ∀ (u : Option UpgradeTask × Option GoError),
      (cfg.isENVPresent = false ∨ u.2 = none) → finalErr cfg u (some e) = some e := by
    intro u hu
    apply finalErr_of_not_aborts
    rintro ⟨hu1, hu2⟩
    rcases hu with hu | hu
    · rw [hu] at hu2; exact Bool.false_ne_true hu2
    · exact hu1 hu
  rcases h with ⟨h0, ho, -, hl⟩ | ⟨h0, h1, ho, -, hl⟩ |
    ⟨h0, h1, err, Wa, Wb, -, -, ho, -, hl⟩ |
    ⟨h0, h1, p, Wa, Wb, err, Wc, Wd, -, -, ho, -, hl⟩ |
    ⟨h0, h1, h2, -, ho, -, hl⟩ |
    ⟨h0, h1, h2, h3, -, ho, -, hl⟩ |
    ⟨h0, h1, h2, h3, p, d, Wa, Wb, Wc, Wd, err, We, Wf, -, -, -, -, ho, -, hl⟩ |
    ⟨h0, h1, h2, h3, p, d, Wa, Wb, Wc, Wd, err, We, Wf, Wg, Wh, -, -, -, -, -, -, ho, -, hl⟩ |
    ⟨h0, h1, h2, h3, p, d, Wa, Wb, Wc, Wd, We, Wf, Wg, Wh, -, -, -, -, -, -, ho, -, hl⟩
  · rw [hl] at hfail
    simp [evTask] at hfail
  · rw [hl] at hfail
    simp [preHead, evTask, upd] at hfail
  · rw [hl] at hfail ⊢
    simp [preHead, evTask, upd, r1] at hfail
    obtain ⟨-, rfl⟩ := hfail
    refine ⟨u1.1, ⟨.PreUpgrade, .StepErrored, "failed to verify cstor pool",
      removeColons e.Error⟩, ns, u2.1, u2.2, by simp [upd], rfl, ?_, ?_⟩
    · rw [ho]; rfl
    · intro hu; rw [ho, hfin u2 hu]
  · rw [hl] at hfail ⊢
    simp [preHead, evTask, upd, r1, r2] at hfail
    obtain ⟨-, rfl⟩ := hfail
    refine ⟨u1.1, ⟨.PreUpgrade, .StepErrored, "failed to verify cstor pool deployment",
      removeColons e.Error⟩, ns, u2.1, u2.2, by simp [upd], rfl, ?_, ?_⟩
    · rw [ho]; rfl
    · intro hu; rw [ho, hfin u2 hu]
  · rw [hl] at hfail
    simp [preDone, preHead, evTask, upd, r1, r2] at hfail
  · rw [hl] at hfail
    simp [preDone, preHead, evTask, upd, r1, r2] at hfail
  · rw [hl] at hfail ⊢
    simp [preDone, preHead, evTask, upd, r1, r2, r3] at hfail
    obtain ⟨-, rfl⟩ := hfail
    refine ⟨u3.1, ⟨.PoolInstanceUpgrade, .StepErrored,
      "failed to patch cstor pool deployment", removeColons e.Error⟩, ns, u4.1, u4.2,
      by simp [upd], rfl, ?_, ?_⟩
    · rw [ho]; rfl
    · intro hu; rw [ho, hfin u4 hu]
  · rw [hl] at hfail ⊢
    simp [preDone, preHead, evTask, upd, r1, r2, r3, r4] at hfail
    obtain ⟨-, rfl⟩ := hfail
    refine ⟨u3.1, ⟨.PoolInstanceUpgrade, .StepErrored, "failed to patch cstor pool",
      removeColons e.Error⟩, ns, u4.1, u4.2, by simp [upd], rfl, ?_, ?_⟩
    · rw [ho]; rfl
    · intro hu; rw [ho, hfin u4 hu]
  · rw [hl] at hfail
    simp [preDone, preHead, evTask, upd, r1, r2, r3, r4] at hfail

/-- C5 (amended) at a sample cluster with the flag off and every status write
failing: the error of `getCSPObject` is returned. -/
theorem first_fatal_error_witness :
    ∃ obj st ns2 res uerr,
      Event.updateUpgradeDetailedStatus obj st ns2 res uerr ∈
        runLog (sampleEnv (samplePool "2.0.0") (sampleDeploy "1.0.0" threeContainers) false
          (fun _ => true)) cfgSoft ⟨[], ""⟩ "pool1" "openebs" ∧
      st.Phase = .StepErrored ∧
      (cspUpgrade (sampleEnv (samplePool "2.0.0") (sampleDeploy "1.0.0" threeContainers) false
          (fun _ => true)) cfgSoft ⟨[], ""⟩ "pool1" "openebs").out =
        .returned (if uerr ≠ none ∧ cfgSoft.isENVPresent = true then uerr
          else some ⟨"cstor pool version 2.0.0 is neither 1.0.0 nor 1.1.0"⟩) ∧
      (cfgSoft.isENVPresent = false ∨ uerr = none →
        (cspUpgrade (sampleEnv (samplePool "2.0.0") (sampleDeploy "1.0.0" threeContainers) false
          (fun _ => true)) cfgSoft ⟨[], ""⟩ "pool1" "openebs").out =
          .returned (some ⟨"cstor pool version 2.0.0 is neither 1.0.0 nor 1.1.0"⟩)) :=
  first_fatal_error _ cfgSoft ⟨[], ""⟩ "pool1" "openebs" .getCSPObject
    ⟨"cstor pool version 2.0.0 is neither 1.0.0 nor 1.1.0"⟩ (by decide)

/-! ## C6: the order of the phases -/

/-- C6: in every run of `cspUpgrade` the phases written for a step are, in
order, nothing (the step was not reached), Waiting, Waiting then Errored, or
Waiting then Completed: a terminal phase is never written before Waiting and
nothing is written for the step after its terminal phase.  On a run that
returns nil the statuses written are exactly PreUpgrade/Waiting,
PreUpgrade/Completed, PoolInstanceUpgrade/Waiting,
PoolInstanceUpgrade/Completed with the two success messages and empty
reasons. -/
theorem phase_order (env : Env) (cfg : Config) (w : World) (cspName ns : String) :
    (∀ step : UpgradeStep,
      phasesOf step (runLog env cfg w cspName ns) = [] ∨
      phasesOf step (runLog env cfg w cspName ns) = [.StepWaiting] ∨
      phasesOf step (runLog env cfg w cspName ns) = [.StepWaiting, .StepErrored] ∨
      phasesOf step (runLog env cfg w cspName ns) = [.StepWaiting, .StepCompleted]) ∧
    ((cspUpgrade env cfg w cspName ns).out = .returned none →
      statusUpdates (runLog env cfg w cspName ns) =
        [⟨.PreUpgrade, .StepWaiting, "", ""⟩,
         ⟨.PreUpgrade, .StepCompleted, "Pre-upgrade steps were successful", ""⟩,
         ⟨.PoolInstanceUpgrade, .StepWaiting, "", ""⟩,
         ⟨.PoolInstanceUpgrade, .StepCompleted, "Pool instance upgrade was successful", ""⟩]) := by
  obtain ⟨g, u1, u2, u3, u4, f1, f2, f3, f4, -, hm1, hm2, hm3, hm4, h⟩ :=
    cspUpgrade_cases env cfg w cspName ns
  have s1 := statusUpdates_fetch hm1
  have s2 := statusUpdates_fetch hm2
  have s3 := statusUpdates_apply hm3
  have s4 := statusUpdates_apply hm4
  have hab : ∀ u : Option UpgradeTask × Option GoError, aborts cfg u →
      Outcome.returned u.2 ≠ Outcome.returned none := by
    intro u hu
    simp [hu.1]
  have hne : ∀ (u : Option UpgradeTask × Option GoError) (err : GoError),
      Outcome.returned (finalErr cfg u (some err)) ≠ Outcome.returned none := by
    intro u err
    simp [finalErr_some_ne_none]
  rcases h with ⟨h0, ho, -, hl⟩ | ⟨h0, h1, ho, -, hl⟩ |
    ⟨h0, h1, err, Wa, Wb, -, -, ho, -, hl⟩ |
    ⟨h0, h1, p, Wa, Wb, err, Wc, Wd, -, -, ho, -, hl⟩ |
    ⟨h0, h1, h2, -, ho, -, hl⟩ |
    ⟨h0, h1, h2, h3, -, ho, -, hl⟩ |
    ⟨h0, h1, h2, h3, p, d, Wa, Wb, Wc, Wd, err, We, Wf, -, -, -, -, ho, -, hl⟩ |
    ⟨h0, h1, h2, h3, p, d, Wa, Wb, Wc, Wd, err, We, Wf, Wg, Wh, -, -, -, -, -, -, ho, -, hl⟩ |
    ⟨h0, h1, h2, h3, p, d, Wa, Wb, Wc, Wd, We, Wf, Wg, Wh, -, -, -, -, -, -, ho, -, hl⟩
  · refine ⟨fun step => ?_, fun hout => absurd (ho ▸ hout) (hab g h0)⟩
    rw [hl]
    cases step <;> simp [phasesOf, statusUpdates, evTask]
  · refine ⟨fun step => ?_, fun hout => absurd (ho ▸ hout) (hab u1 h1)⟩
    rw [hl]
    cases step <;> simp [phasesOf, statusUpdates, preHead, evTask, upd]
  · refine ⟨fun step => ?_, fun hout => absurd (ho ▸ hout) (hne u2 err)⟩
    rw [hl]
    cases step <;>
      simp [phasesOf, statusUpdates_append, s1, statusUpdates, preHead, evTask, upd]
  · refine ⟨fun step => ?_, fun hout => absurd (ho ▸ hout) (hne u2 err)⟩
    rw [hl]
    cases step <;>
      simp [phasesOf, statusUpdates_append, s1, s2, statusUpdates, preHead, evTask, upd]
  · refine ⟨fun step => ?_, fun hout => absurd (ho ▸ hout) (hab u2 h2)⟩
    rw [hl]
    cases step <;>
      simp [phasesOf, statusUpdates_append, s1, s2, statusUpdates, preDone, preHead, evTask,
        upd]
  · refine ⟨fun step => ?_, fun hout => absurd (ho ▸ hout) (hab u3 h3)⟩
    rw [hl]
    cases step <;>
      simp [phasesOf, statusUpdates_append, s1, s2, statusUpdates, preDone, preHead, evTask,
        upd]
  · refine ⟨fun step => ?_, fun hout => absurd (ho ▸ hout) (hne u4 err)⟩
    rw [hl]
    cases step <;>
      simp [phasesOf, statusUpdates_append, s1, s2, s3, statusUpdates, preDone, preHead,
        evTask, upd]
  · refine ⟨fun step => ?_, fun hout => absurd (ho ▸ hout) (hne u4 err)⟩
    rw [hl]
    cases step <;>
      simp [phasesOf, statusUpdates_append, s1, s2, s3, s4, statusUpdates, preDone, preHead,
        evTask, upd]
  · refine ⟨fun step => ?_, fun _ => ?_⟩
    · rw [hl]
      cases step <;>
        simp [phasesOf, statusUpdates_append, s1, s2, s3, s4, statusUpdates, preDone, preHead,
          evTask, upd]
    · rw [hl]
      simp [statusUpdates_append, s1, s2, s3, s4, statusUpdates, preDone, preHead, evTask, upd]

/-- C6 at a sample cluster on which the upgrade succeeds. -/
theorem phase_order_witness :
    statusUpdates (runLog (sampleEnv (samplePool "1.0.0") (sampleDeploy "1.0.0" threeContainers)
        false (fun _ => false)) cfgStrict ⟨[], ""⟩ "pool1" "openebs") =
      [⟨.PreUpgrade, .StepWaiting, "", ""⟩,
       ⟨.PreUpgrade, .StepCompleted, "Pre-upgrade steps were successful", ""⟩,
       ⟨.PoolInstanceUpgrade, .StepWaiting, "", ""⟩,
       ⟨.PoolInstanceUpgrade, .StepCompleted, "Pool instance upgrade was successful", ""⟩] :=
  (phase_order _ cfgStrict ⟨[], ""⟩ "pool1" "openebs").2 (by decide)

/-! ## C7: the reason of an Errored status -/

/-- C7: whenever a resolution or patch operation of a run fails with `e`, an
Errored status whose Reason is `e.Error()` with every `:` removed is passed to
`updateUpgradeDetailedStatus`; every Errored status of a run has such a Reason
and it contains no `:`; removing the colons keeps all other characters in
order.  For a pool labelled 2.0.0 with current 1.0.0 and target 1.1.0 every
Errored status of the run has the Reason
`cstor pool version 2.0.0 is neither 1.0.0 nor 1.1.0`, which contains
`neither 1.0.0 nor 1.1.0`, and with the strictness flag off such a status is
issued. -/
theorem sanitization (env : Env) (cfg : Config) (w : World) (cspName ns : String) :
    (∀ (op : Op) (e : GoError), Event.returned op (some e) ∈ runLog env cfg w cspName ns →
      ∃ st ∈ statusUpdates (runLog env cfg w cspName ns),
        st.Phase = .StepErrored ∧ st.Reason = removeColons e.Error) ∧
    (∀ st ∈ statusUpdates (runLog env cfg w cspName ns), st.Phase = .StepErrored →
      (∃ (op : Op) (e : GoError), Event.returned op (some e) ∈ runLog env cfg w cspName ns ∧
        st.Reason = removeColons e.Error) ∧ ':' ∉ st.Reason.data) ∧
    (∀ s : String, (removeColons s).data = s.data.filter (fun ch => ch != ':')) ∧
    (cspName ≠ "" → cfg.currentVersion = "1.0.0" → cfg.upgradeVersion = "1.1.0" →
      (∀ h, ∃ p, env.cspClientGet h cspName = .ok p ∧
        labelOf p.Labels "openebs.io/version" = "2.0.0") →
      (∀ st ∈ statusUpdates (runLog env cfg w cspName ns), st.Phase = .StepErrored →
        st.Reason = "cstor pool version 2.0.0 is neither 1.0.0 nor 1.1.0" ∧
        ∃ a b, st.Reason = a ++ "neither 1.0.0 nor 1.1.0" ++ b) ∧
      (cfg.isENVPresent = false →
        ∃ st ∈ statusUpdates (runLog env cfg w cspName ns), st.Phase = .StepErrored)) := by
  obtain ⟨g, u1, u2, u3, u4, f1, f2, f3, f4, -, hm1, hm2, hm3, hm4, h⟩ :=
    cspUpgrade_cases env cfg w cspName ns
  have s1 := statusUpdates_fetch hm1
  have s2 := statusUpdates_fetch hm2
  have s3 := statusUpdates_apply hm3
  have s4 := statusUpdates_apply hm4
  have r1 := returned_not_mem_fetch hm1
  have r2 := returned_not_mem_fetch hm2
  have r3 := returned_not_mem_apply hm3
  have r4 := returned_not_mem_apply hm4
  have hnc := removeColons_no_colon
  have hlit : removeColons (Errorf "cstor pool version 2.0.0 is neither 1.0.0 nor 1.1.0").Error
      = "cstor pool version 2.0.0 is neither 1.0.0 nor 1.1.0" := by decide
  have hsub : ∃ a b : String, "cstor pool version 2.0.0 is neither 1.0.0 nor 1.1.0" =
      a ++ "neither 1.0.0 nor 1.1.0" ++ b := ⟨"cstor pool version 2.0.0 is ", "", by decide⟩
  refine ⟨?_, ?_, fun s => rfl, ?_⟩
  · intro op e hfail
    rcases h with ⟨h0, ho, -, hl⟩ | ⟨h0, h1, ho, -, hl⟩ |
      ⟨h0, h1, err, Wa, Wb, -, -, ho, -, hl⟩ |
      ⟨h0, h1, p, Wa, Wb, err, Wc, Wd, -, -, ho, -, hl⟩ |
      ⟨h0, h1, h2, -, ho, -, hl⟩ |
      ⟨h0, h1, h2, h3, -, ho, -, hl⟩ |
      ⟨h0, h1, h2, h3, p, d, Wa, Wb, Wc, Wd, err, We, Wf, -, -, -, -, ho, -, hl⟩ |
      ⟨h0, h1, h2, h3, p, d, Wa, Wb, Wc, Wd, err, We, Wf, Wg, Wh, -, -, -, -, -, -, ho, -, hl⟩ |
      ⟨h0, h1, h2, h3, p, d, Wa, Wb, Wc, Wd, We, Wf, Wg, Wh, -, -, -, -, -, -, ho, -, hl⟩
    all_goals
      rw [hl] at hfail ⊢
      simp [preDone, preHead, evTask, upd, r1, r2, r3, r4] at hfail
    all_goals
      obtain ⟨-, rfl⟩ := hfail
      simp [statusUpdates_append, s1, s2, s3, s4, statusUpdates, preDone, preHead, evTask, upd]
  · intro st hst hph
    rcases h with ⟨h0, ho, -, hl⟩ | ⟨h0, h1, ho, -, hl⟩ |
      ⟨h0, h1, err, Wa, Wb, -, -, ho, -, hl⟩ |
      ⟨h0, h1, p, Wa, Wb, err, Wc, Wd, -, -, ho, -, hl⟩ |
      ⟨h0, h1, h2, -, ho, -, hl⟩ |
      ⟨h0, h1, h2, h3, -, ho, -, hl⟩ |
      ⟨h0, h1, h2, h3, p, d, Wa, Wb, Wc, Wd, err, We, Wf, -, -, -, -, ho, -, hl⟩ |
      ⟨h0, h1, h2, h3, p, d, Wa, Wb, Wc, Wd, err, We, Wf, Wg, Wh, -, -, -, -, -, -, ho, -, hl⟩ |
      ⟨h0, h1, h2, h3, p, d, Wa, Wb, Wc, Wd, We, Wf, Wg, Wh, -, -, -, -, -, -, ho, -, hl⟩
    all_goals
      rw [hl] at hst ⊢
      revert hph
      revert hst
      revert st
      simp [statusUpdates_append, s1, s2, s3, s4, statusUpdates, preDone, preHead, evTask, upd,
        r1, r2, r3, r4, hnc]
    all_goals exact ⟨_, _, ⟨rfl, rfl⟩, rfl⟩
  · intro hn hcur hup hpool
    have herr : ∀ (err : GoError) (Wa Wb : World),
        getCSPObject env cfg Wa cspName = (.error err, Wb) →
        err = Errorf "cstor pool version 2.0.0 is neither 1.0.0 nor 1.1.0" :=
      fun err Wa Wb hgo => getCSPObject_error_of_label hn hpool hcur hup hgo
    have hok : ∀ (p : CStorPool) (Wa Wb : World),
        getCSPObject env cfg Wa cspName ≠ (.ok p, Wb) := by
      intro p Wa Wb hgo
      obtain ⟨q, hq, hlq⟩ := hpool Wa.trace
      have hv : labelOf q.Labels "openebs.io/version" ≠ cfg.currentVersion ∧
          labelOf q.Labels "openebs.io/version" ≠ cfg.upgradeVersion := by
        rw [hlq, hcur, hup]; decide
      simp [getCSPObject, hn, hq, hv] at hgo
    rcases h with ⟨h0, ho, -, hl⟩ | ⟨h0, h1, ho, -, hl⟩ |
      ⟨h0, h1, err, Wa, Wb, hgo, -, ho, -, hl⟩ |
      ⟨h0, h1, p, Wa, Wb, err, Wc, Wd, hgo, -, ho, -, hl⟩ |
      ⟨h0, h1, h2, ⟨p, d, Wa, Wb, Wc, Wd, hgo, -⟩, ho, -, hl⟩ |
      ⟨h0, h1, h2, h3, ⟨p, d, Wa, Wb, Wc, Wd, hgo, -⟩, ho, -, hl⟩ |
      ⟨h0, h1, h2, h3, p, d, Wa, Wb, Wc, Wd, err, We, Wf, hgo, -, -, -, ho, -, hl⟩ |
      ⟨h0, h1, h2, h3, p, d, Wa, Wb, Wc, Wd, err, We, Wf, Wg, Wh, hgo, -, -, -, -, -, ho, -, hl⟩ |
      ⟨h0, h1, h2, h3, p, d, Wa, Wb, Wc, Wd, We, Wf, Wg, Wh, hgo, -, -, -, -, -, ho, -, hl⟩
    · refine ⟨?_, fun hsoft => ?_⟩
      · rw [hl]; simp [statusUpdates, evTask]
      · have := h0.2; rw [hsoft] at this; exact absurd this Bool.false_ne_true
    · refine ⟨?_, fun hsoft => ?_⟩
      · rw [hl]; simp [statusUpdates, preHead, evTask, upd]
      · have := h1.2; rw [hsoft] at this; exact absurd this Bool.false_ne_true
    · have he := herr err Wa Wb hgo
      subst he
      have hsu : statusUpdates (runLog env cfg w cspName ns) =
          [⟨.PreUpgrade, .StepWaiting, "", ""⟩,
           ⟨.PreUpgrade, .StepErrored, "failed to verify cstor pool",
             "cstor pool version 2.0.0 is neither 1.0.0 nor 1.1.0"⟩] := by
        rw [hl]
        simp [statusUpdates_append, s1, statusUpdates, preHead, evTask, upd, hlit]
      rw [hsu]
      refine ⟨?_, fun _ => ⟨_, List.mem_cons_of_mem _ (List.mem_singleton.mpr rfl), rfl⟩⟩
      intro st hst hph
      simp only [List.mem_cons, List.mem_singleton, List.not_mem_nil, or_false] at hst
      rcases hst with rfl | rfl
      · simp at hph
      · exact ⟨rfl, hsub⟩
    all_goals exact absurd hgo (hok _ _ _)

/-- C7 at a sample cluster whose pool is labelled 2.0.0. -/
theorem sanitization_witness :
    (∀ st ∈ statusUpdates (runLog (sampleEnv (samplePool "2.0.0")
        (sampleDeploy "1.0.0" threeContainers) false (fun _ => false)) cfgSoft ⟨[], ""⟩
        "pool1" "openebs"), st.Phase = .StepErrored →
      st.Reason = "cstor pool version 2.0.0 is neither 1.0.0 nor 1.1.0" ∧
      ∃ a b, st.Reason = a ++ "neither 1.0.0 nor 1.1.0" ++ b) ∧
    (cfgSoft.isENVPresent = false →
      ∃ st ∈ statusUpdates (runLog (sampleEnv (samplePool "2.0.0")
        (sampleDeploy "1.0.0" threeContainers) false (fun _ => false)) cfgSoft ⟨[], ""⟩
        "pool1" "openebs"), st.Phase = .StepErrored) :=
  (sanitization _ cfgSoft ⟨[], ""⟩ "pool1" "openebs").2.2.2 (by decide) rfl rfl
    (fun _ => ⟨samplePool "2.0.0", rfl, rfl⟩)

/-! ## C8: a missing container -/

/-- C8 fails in strict mode when the Waiting write fails: the deployment is at
the current version and lacks the `cstor-pool-mgmt` container, yet
`poolInstanceUpgarde` returns the error of the Waiting write and the only
status it issues is Waiting, no Errored status. -/
theorem strict_waiting_failure_skips_errored_status :
    labelOf (sampleDeploy "1.0.0" twoContainers).Labels "openebs.io/version" =
      cfgStrict.currentVersion ∧
    (sampleEnv (samplePool "1.0.0") (sampleDeploy "1.0.0" twoContainers) false
      (fun _ => true)).getBaseImage (sampleDeploy "1.0.0" twoContainers) "cstor-pool-mgmt" =
      .error ⟨"image not found for cstor-pool-mgmt"⟩ ∧
    statusUpdates (eventsSince ⟨[], ""⟩
      (poolInstanceUpgarde (sampleEnv (samplePool "1.0.0") (sampleDeploy "1.0.0" twoContainers)
        false (fun _ => true)) cfgStrict
        ⟨some sampleTask, some (samplePool "1.0.0"), some (sampleDeploy "1.0.0" twoContainers)⟩
        ⟨[], ""⟩ "openebs").w) = [⟨.PoolInstanceUpgrade, .StepWaiting, "", ""⟩] ∧
    (poolInstanceUpgarde (sampleEnv (samplePool "1.0.0") (sampleDeploy "1.0.0" twoContainers)
        false (fun _ => true)) cfgStrict
        ⟨some sampleTask, some (samplePool "1.0.0"), some (sampleDeploy "1.0.0" twoContainers)⟩
        ⟨[], ""⟩ "openebs").out = .returned (some ⟨"failed to update upgradetask"⟩) := by
  refine ⟨by decide, rfl, by decide, by decide⟩

/-- C8 as the code has it: for a deployment at the current version for which
the image lookup of one of the three containers fails, let `e` be the error of
the first lookup that fails in the order `cstor-pool`, `cstor-pool-mgmt`,
`maya-exporter` (every lookup before it succeeds).  Then
`getCSPDeployPatchDetails` returns `e`, `patchCSPDeploy` returns `e` and leaves
the world untouched, and `poolInstanceUpgarde` returns a non-nil error, never
calls `patchCSP` and renders and applies no patch.  If its Waiting write
aborts the step (strictness flag on and that write failing), it returns the
error of that write and its whole log is that write: `patchCSPDeploy` is not
called and no Errored status is issued.  Otherwise its log is exactly the
Waiting write, the failed call of `patchCSPDeploy` with `e`, and an Errored
write with Message `failed to patch cstor pool deployment` and the sanitized
`e` as Reason, and it returns the error of that Errored write when the write
aborts the step and `e` when it does not. -/
theorem missing_container_stops_step (env : Env) (cfg : Config) (c : cstorCSPOptions)
    (w : World) (ns : String) (d : Deployment)
    (hd : c.cspDeployObj = some d)
    (hver : labelOf d.Labels "openebs.io/version" = cfg.currentVersion)
    (hfail : ∃ name ∈ containerRoles, ∃ e, env.getBaseImage d name = .error e) :
    ∃ pre name post e, containerRoles = pre ++ name :: post ∧
      (∀ n ∈ pre, ∃ img, env.getBaseImage d n = .ok img) ∧
      env.getBaseImage d name = .error e ∧
      getCSPDeployPatchDetails env cfg d = .error e ∧
      (∀ w2, patchCSPDeploy env cfg w2 d ns = (some e, w2)) ∧
      (∃ err, (poolInstanceUpgarde env cfg c w ns).out = .returned (some err)) ∧
      (∀ err, Event.returned .patchCSP err ∉
        eventsSince w (poolInstanceUpgarde env cfg c w ns).w) ∧
      (∀ ev ∈ eventsSince w (poolInstanceUpgarde env cfg c w ns).w, ev.isApply = false) ∧
      (aborts cfg (env.updateUpgradeDetailedStatus w.trace c.utaskObj
          ⟨.PoolInstanceUpgrade, .StepWaiting, "", ""⟩ ns) →
        (poolInstanceUpgarde env cfg c w ns).out =
          .returned (env.updateUpgradeDetailedStatus w.trace c.utaskObj
            ⟨.PoolInstanceUpgrade, .StepWaiting, "", ""⟩ ns).2 ∧
        eventsSince w (poolInstanceUpgarde env cfg c w ns).w =
          [upd c.utaskObj .PoolInstanceUpgrade .StepWaiting "" "" ns
            (env.updateUpgradeDetailedStatus w.trace c.utaskObj
              ⟨.PoolInstanceUpgrade, .StepWaiting, "", ""⟩ ns)]) ∧
      (¬ aborts cfg (env.updateUpgradeDetailedStatus w.trace c.utaskObj
          ⟨.PoolInstanceUpgrade, .StepWaiting, "", ""⟩ ns) →
        ∃ u2 : Option UpgradeTask × Option GoError,
          eventsSince w (poolInstanceUpgarde env cfg c w ns).w =
            [upd c.utaskObj .PoolInstanceUpgrade .StepWaiting "" "" ns
              (env.updateUpgradeDetailedStatus w.trace c.utaskObj
                ⟨.PoolInstanceUpgrade, .StepWaiting, "", ""⟩ ns),
             .returned .patchCSPDeploy (some e),
             upd (env.updateUpgradeDetailedStatus w.trace c.utaskObj
                ⟨.PoolInstanceUpgrade, .StepWaiting, "", ""⟩ ns).1
               .PoolInstanceUpgrade .StepErrored "failed to patch cstor pool deployment"
               (removeColons e.Error) ns u2] ∧
          (poolInstanceUpgarde env cfg c w ns).out =
            .returned (if aborts cfg u2 then u2.2 else some e)) := by
  obtain ⟨pre, name, post, e, hsplit, hpre, he, hdet⟩ :=
    getCSPDeployPatchDetails_error env cfg d hfail
  have hpatch : ∀ w2, patchCSPDeploy env cfg w2 d ns = (some e, w2) := by
    intro w2
    simp only [patchCSPDeploy, if_pos hver, hdet]
  refine ⟨pre, name, post, e, hsplit, hpre, he, hdet, hpatch, ?_⟩
  obtain ⟨u1, hu1, h⟩ := poolInstanceUpgarde_cases env cfg c w ns
  rw [← hu1]
  rcases h with ⟨h1, hq⟩ | ⟨h1, hn, hq⟩ | ⟨h1, d2, err, w2, u2, hd2, hpd, hq⟩ |
    ⟨h1, d2, w2, hd2, hpd, -⟩ | ⟨h1, d2, w2, p, err, w3, u2, hd2, hpd, -⟩ |
    ⟨h1, d2, w2, p, w3, u2, hd2, hpd, -⟩
  · obtain ⟨e1, he1⟩ := aborts_exists h1
    have hev : eventsSince w (poolInstanceUpgarde env cfg c w ns).w =
        [upd c.utaskObj .PoolInstanceUpgrade .StepWaiting "" "" ns u1] := by
      rw [hq]; exact eventsSince_of_trace rfl
    rw [hev, hq]
    refine ⟨⟨e1, by rw [he1]⟩, ?_, ?_, fun _ => ⟨rfl, rfl⟩, fun hna => absurd h1 hna⟩
    · simp [upd]
    · simp [upd, Event.isApply]
  · rw [hd] at hn; simp at hn
  · rw [hd] at hd2
    simp only [Option.some.injEq] at hd2
    subst hd2
    rw [hpatch] at hpd
    simp only [Prod.mk.injEq, Option.some.injEq] at hpd
    obtain ⟨rfl, rfl⟩ := hpd
    obtain ⟨e2, he2⟩ := finalErr_some_exists cfg u2 e
    have hev : eventsSince w (poolInstanceUpgarde env cfg c w ns).w =
        [upd c.utaskObj .PoolInstanceUpgrade .StepWaiting "" "" ns u1,
         .returned .patchCSPDeploy (some e),
         upd u1.1 .PoolInstanceUpgrade .StepErrored "failed to patch cstor pool deployment"
           (removeColons e.Error) ns u2] := by
      rw [hq]; exact eventsSince_of_trace (by simp [World.log])
    rw [hev, hq]
    refine ⟨⟨e2, by rw [he2]⟩, ?_, ?_, fun ha => absurd ha h1, fun _ => ⟨u2, rfl, rfl⟩⟩
    · simp [upd]
    · simp [upd, Event.isApply]
  all_goals
    rw [hd] at hd2
    simp only [Option.some.injEq] at hd2
    subst hd2
    rw [hpatch] at hpd
    simp at hpd

/-- C8 (amended) at the sample deployment without the management sidecar, in
strict mode with a working status collaborator. -/
theorem missing_container_stops_step_witness :
    ∃ pre name post e, containerRoles = pre ++ name :: post ∧
      (∀ n ∈ pre, ∃ img,
        envNoMgmt.getBaseImage (sampleDeploy "1.0.0" twoContainers) n = .ok img) ∧
      envNoMgmt.getBaseImage (sampleDeploy "1.0.0" twoContainers) name = .error e ∧
      getCSPDeployPatchDetails envNoMgmt cfgStrict (sampleDeploy "1.0.0" twoContainers) =
        .error e ∧
      (∀ w2, patchCSPDeploy envNoMgmt cfgStrict w2 (sampleDeploy "1.0.0" twoContainers)
        "openebs" = (some e, w2)) ∧
      (∃ err, (poolInstanceUpgarde envNoMgmt cfgStrict optsNoMgmt emptyWorld "openebs").out =
        .returned (some err)) ∧
      (∀ err, Event.returned .patchCSP err ∉ eventsSince emptyWorld
        (poolInstanceUpgarde envNoMgmt cfgStrict optsNoMgmt emptyWorld "openebs").w) ∧
      (∀ ev ∈ eventsSince emptyWorld
        (poolInstanceUpgarde envNoMgmt cfgStrict optsNoMgmt emptyWorld "openebs").w,
        ev.isApply = false) ∧
      (aborts cfgStrict (envNoMgmt.updateUpgradeDetailedStatus emptyWorld.trace
          optsNoMgmt.utaskObj ⟨.PoolInstanceUpgrade, .StepWaiting, "", ""⟩ "openebs") →
        (poolInstanceUpgarde envNoMgmt cfgStrict optsNoMgmt emptyWorld "openebs").out =
          .returned (envNoMgmt.updateUpgradeDetailedStatus emptyWorld.trace
            optsNoMgmt.utaskObj ⟨.PoolInstanceUpgrade, .StepWaiting, "", ""⟩ "openebs").2 ∧
        eventsSince emptyWorld
            (poolInstanceUpgarde envNoMgmt cfgStrict optsNoMgmt emptyWorld "openebs").w =
          [upd optsNoMgmt.utaskObj .PoolInstanceUpgrade .StepWaiting "" "" "openebs"
            (envNoMgmt.updateUpgradeDetailedStatus emptyWorld.trace optsNoMgmt.utaskObj
              ⟨.PoolInstanceUpgrade, .StepWaiting, "", ""⟩ "openebs")]) ∧
      (¬ aborts cfgStrict (envNoMgmt.updateUpgradeDetailedStatus emptyWorld.trace
          optsNoMgmt.utaskObj ⟨.PoolInstanceUpgrade, .StepWaiting, "", ""⟩ "openebs") →
        ∃ u2 : Option UpgradeTask × Option GoError,
          eventsSince emptyWorld
              (poolInstanceUpgarde envNoMgmt cfgStrict optsNoMgmt emptyWorld "openebs").w =
            [upd optsNoMgmt.utaskObj .PoolInstanceUpgrade .StepWaiting "" "" "openebs"
              (envNoMgmt.updateUpgradeDetailedStatus emptyWorld.trace optsNoMgmt.utaskObj
                ⟨.PoolInstanceUpgrade, .StepWaiting, "", ""⟩ "openebs"),
             .returned .patchCSPDeploy (some e),
             upd (envNoMgmt.updateUpgradeDetailedStatus emptyWorld.trace optsNoMgmt.utaskObj
                ⟨.PoolInstanceUpgrade, .StepWaiting, "", ""⟩ "openebs").1
               .PoolInstanceUpgrade .StepErrored "failed to patch cstor pool deployment"
               (removeColons e.Error) "openebs" u2] ∧
          (poolInstanceUpgarde envNoMgmt cfgStrict optsNoMgmt emptyWorld "openebs").out =
            .returned (if aborts cfgStrict u2 then u2.2 else some e)) :=
  missing_container_stops_step envNoMgmt cfgStrict optsNoMgmt emptyWorld "openebs"
    (sampleDeploy "1.0.0" twoContainers) rfl (by decide)
    ⟨"cstor-pool-mgmt", by decide, ⟨"image not found for cstor-pool-mgmt"⟩, rfl⟩

/-! ## C9: the in-memory record after a failed status write -/

/-- C9 fails when the collaborator returns a nil record with its error: with
the strictness flag off, `poolInstanceUpgarde` starts with the record
`sampleTask`, its status writes fail, and the record it holds afterwards is
nil; likewise `cspUpgrade` returns a nil record although
`getOrCreateUpgradeTask` had produced `sampleTask`. -/
theorem failed_status_write_replaces_record :
    cfgSoft.isENVPresent = false ∧
    (sampleEnv (samplePool "1.0.0") (sampleDeploy "1.0.0" threeContainers) false
      (fun _ => true)).updateUpgradeDetailedStatus [] (some sampleTask)
      ⟨.PoolInstanceUpgrade, .StepWaiting, "", ""⟩ "openebs" =
      (none, some ⟨"failed to update upgradetask"⟩) ∧
    (poolInstanceUpgarde (sampleEnv (samplePool "1.0.0") (sampleDeploy "1.0.0" threeContainers)
      false (fun _ => true)) cfgSoft
      ⟨some sampleTask, some (samplePool "1.0.0"), some (sampleDeploy "1.0.0" threeContainers)⟩
      ⟨[], ""⟩ "openebs").c.utaskObj = none ∧
    (cspUpgrade (sampleEnv (samplePool "1.0.0") (sampleDeploy "1.0.0" threeContainers)
      false (fun _ => true)) cfgSoft ⟨[], ""⟩ "pool1" "openebs").utaskObj = none ∧
    (sampleEnv (samplePool "1.0.0") (sampleDeploy "1.0.0" threeContainers) false
      (fun _ => true)).getOrCreateUpgradeTask [] "cstorPool" "pool1" "openebs" =
      (some sampleTask, none) := by
  refine ⟨rfl, rfl, by decide, by decide, rfl⟩

/-- C9 as the code has it: every status call overwrites `utaskObj` with the
record the collaborator returned, error or not, so each
`updateUpgradeDetailedStatus` call is handed the record returned by the status
call before it, and `cspUpgrade` returns the record returned by the last
status call (the previous record survives a failed write only when the
collaborator hands it back).  With the strictness flag off a failed status
write never ends the run: the run returns nil or the error of a failed
resolution or patch operation. -/
theorem record_follows_status_calls (env : Env) (cfg : Config) (w : World)
    (cspName ns : String) :
    recordFlow none (runLog env cfg w cspName ns) = true ∧
    (cspUpgrade env cfg w cspName ns).utaskObj = lastRecord none (runLog env cfg w cspName ns) ∧
    (cfg.isENVPresent = false →
      (cspUpgrade env cfg w cspName ns).out = .returned none ∨
      ∃ op e, Event.returned op (some e) ∈ runLog env cfg w cspName ns ∧
        (cspUpgrade env cfg w cspName ns).out = .returned (some e)) := by
  obtain ⟨g, u1, u2, u3, u4, f1, f2, f3, f4, -, hm1, hm2, hm3, hm4, h⟩ :=
    cspUpgrade_cases env cfg w cspName ns
  have c1 := @recordFlow_append_fetch f1 hm1
  have c2 := @recordFlow_append_fetch f2 hm2
  have c3 := @recordFlow_append_apply f3 hm3
  have c4 := @recordFlow_append_apply f4 hm4
  have l1 := @lastRecord_append_fetch f1 hm1
  have l2 := @lastRecord_append_fetch f2 hm2
  have l3 := @lastRecord_append_apply f3 hm3
  have l4 := @lastRecord_append_apply f4 hm4
  have hna : cfg.isENVPresent = false →
      ∀ u : Option UpgradeTask × Option GoError, ¬ aborts cfg u := by
    intro hsoft u hu
    have := hu.2
    rw [hsoft] at this
    exact Bool.false_ne_true this
  rcases h with ⟨h0, ho, hu, hl⟩ | ⟨h0, h1, ho, hu, hl⟩ |
    ⟨h0, h1, err, Wa, Wb, -, -, ho, hu, hl⟩ |
    ⟨h0, h1, p, Wa, Wb, err, Wc, Wd, -, -, ho, hu, hl⟩ |
    ⟨h0, h1, h2, -, ho, hu, hl⟩ |
    ⟨h0, h1, h2, h3, -, ho, hu, hl⟩ |
    ⟨h0, h1, h2, h3, p, d, Wa, Wb, Wc, Wd, err, We, Wf, -, -, -, -, ho, hu, hl⟩ |
    ⟨h0, h1, h2, h3, p, d, Wa, Wb, Wc, Wd, err, We, Wf, Wg, Wh, -, -, -, -, -, -, ho, hu, hl⟩ |
    ⟨h0, h1, h2, h3, p, d, Wa, Wb, Wc, Wd, We, Wf, Wg, Wh, -, -, -, -, -, -, ho, hu, hl⟩
  · rw [hl, hu]
    exact ⟨rfl, rfl, fun hs => absurd h0 (hna hs g)⟩
  · rw [hl, hu]
    refine ⟨?_, rfl, fun hs => absurd h1 (hna hs u1)⟩
    simp [preHead, evTask, upd, recordFlow]
  · rw [hl, hu, ho]
    refine ⟨?_, ?_, fun hs => Or.inr ⟨.getCSPObject, err, by simp,
      by rw [finalErr_of_not_aborts (hna hs u2)]⟩⟩
    · simp [preHead, evTask, upd, recordFlow, c1]
    · simp [preHead, evTask, upd, lastRecord, l1]
  · rw [hl, hu, ho]
    refine ⟨?_, ?_, fun hs => Or.inr ⟨.getCSPDeployment, err, by simp,
      by rw [finalErr_of_not_aborts (hna hs u2)]⟩⟩
    · simp [preHead, evTask, upd, recordFlow, c1, c2]
    · simp [preHead, evTask, upd, lastRecord, l1, l2]
  · rw [hl, hu]
    refine ⟨?_, ?_, fun hs => absurd h2 (hna hs u2)⟩
    · simp [preDone, preHead, evTask, upd, recordFlow, c1, c2]
    · simp [preDone, preHead, evTask, upd, lastRecord, l1, l2]
  · rw [hl, hu]
    refine ⟨?_, ?_, fun hs => absurd h3 (hna hs u3)⟩
    · simp [preDone, preHead, evTask, upd, recordFlow, c1, c2]
    · simp [preDone, preHead, evTask, upd, lastRecord, l1, l2]
  · rw [hl, hu, ho]
    refine ⟨?_, ?_, fun hs => Or.inr ⟨.patchCSPDeploy, err, by simp,
      by rw [finalErr_of_not_aborts (hna hs u4)]⟩⟩
    · simp [preDone, preHead, evTask, upd, recordFlow, c1, c2, c3]
    · simp [preDone, preHead, evTask, upd, lastRecord, l1, l2, l3]
  · rw [hl, hu, ho]
    refine ⟨?_, ?_, fun hs => Or.inr ⟨.patchCSP, err, by simp,
      by rw [finalErr_of_not_aborts (hna hs u4)]⟩⟩
    · simp [preDone, preHead, evTask, upd, recordFlow, c1, c2, c3, c4]
    · simp [preDone, preHead, evTask, upd, lastRecord, l1, l2, l3, l4]
  · rw [hl, hu, ho]
    refine ⟨?_, ?_, fun hs => Or.inl (by rw [finalErr_of_not_aborts (hna hs u4)])⟩
    · simp [preDone, preHead, evTask, upd, recordFlow, c1, c2, c3, c4]
    · simp [preDone, preHead, evTask, upd, lastRecord, l1, l2, l3, l4]

/-- C9 (amended) at a sample cluster whose status collaborator fails on every
call, strictness flag off. -/
theorem record_follows_status_calls_witness :
    (cspUpgrade (sampleEnv (samplePool "1.0.0") (sampleDeploy "1.0.0" threeContainers)
      true (fun _ => true)) cfgSoft ⟨[], ""⟩ "pool1" "openebs").out = .returned none ∨
    ∃ op e, Event.returned op (some e) ∈ runLog (sampleEnv (samplePool "1.0.0")
        (sampleDeploy "1.0.0" threeContainers) true (fun _ => true)) cfgSoft ⟨[], ""⟩
        "pool1" "openebs" ∧
      (cspUpgrade (sampleEnv (samplePool "1.0.0") (sampleDeploy "1.0.0" threeContainers)
        true (fun _ => true)) cfgSoft ⟨[], ""⟩ "pool1" "openebs").out = .returned (some e) :=
  (record_follows_status_calls _ cfgSoft ⟨[], ""⟩ "pool1" "openebs").2.2 rfl

/-! ## C10: missing identifiers -/

/-- C10 fails for an empty pool name: `getCSPDeployment "" "openebs"` does call
the lookup collaborator, with the selector `openebs.io/cstor-pool=`, and returns
the deployment found, not an error. -/
theorem missing_pool_name_reaches_lookup :
    getCSPDeployment (sampleEnv (samplePool "1.0.0") (sampleDeploy "1.0.0" threeContainers)
        false (fun _ => false)) cfgSoft ⟨[], ""⟩ "" "openebs" =
      (.ok (sampleDeploy "1.0.0" threeContainers),
        ⟨[.getDeployment "openebs.io/cstor-pool=" "openebs"], ""⟩) := by
  rfl

/-- C10 as the code has it: `getCSPObject` rejects the empty pool name and
`getCSPDeployment` rejects the empty namespace, both without touching the world
(no collaborator is called).  An empty pool name alone is not rejected by
`getCSPDeployment`: with a non-empty namespace it queries the selector
`openebs.io/cstor-pool=` and returns what the lookup and the version gate
decide.  Within `cspUpgrade` an empty pool name never reaches the cluster: the
run returns a non-nil error and logs no fetch and no lookup. -/
theorem missing_identifier (env : Env) (cfg : Config) (w : World) :
    getCSPObject env cfg w "" = (.error (Errorf "missing csp name"), w) ∧
    (∀ cspName, getCSPDeployment env cfg w cspName "" =
      (.error (Errorf "missing openebs namespace"), w)) ∧
    (∀ ns, ns ≠ "" →
      (getCSPDeployment env cfg w "" ns).2 = w.log (.getDeployment "openebs.io/cstor-pool=" ns) ∧
      ∀ d v, env.getDeployment w.trace "openebs.io/cstor-pool=" ns = .ok d → d.Name ≠ "" →
        env.getOpenEBSVersion d = .ok v → (v = cfg.currentVersion ∨ v = cfg.upgradeVersion) →
        (getCSPDeployment env cfg w "" ns).1 = .ok d) ∧
    (∀ ns, (∃ e, (cspUpgrade env cfg w "" ns).out = .returned (some e)) ∧
      ∀ ev ∈ runLog env cfg w "" ns, ev.isFetch = false) := by
  refine ⟨getCSPObject_empty env cfg w, ?_, ?_, ?_⟩
  · intro cspName
    simp [getCSPDeployment]
  · intro ns hns
    have hl : "openebs.io/cstor-pool=" ++ "" = "openebs.io/cstor-pool=" := by decide
    refine ⟨?_, ?_⟩
    · simp only [getCSPDeployment, if_neg hns, hl]
      split
      · rfl
      · split
        · rfl
        · split
          · rfl
          · split <;> rfl
    · intro d v hdep hdname hver hv
      have hv2 : ¬ (v ≠ cfg.currentVersion ∧ v ≠ cfg.upgradeVersion) := by
        rcases hv with h | h <;> simp [h]
      simp only [getCSPDeployment, if_neg hns, hl, hdep, if_neg hdname, hver, if_neg hv2]
  · intro ns
    obtain ⟨g, u1, u2, u3, u4, f1, f2, f3, f4, -, hm1, hm2, hm3, hm4, h⟩ :=
      cspUpgrade_cases env cfg w "" ns
    rw [noFetch_iff]
    have hok : ∀ (p : CStorPool) (Wa Wb : World),
        getCSPObject env cfg Wa "" ≠ (.ok p, Wb) := by
      intro p Wa Wb
      rw [getCSPObject_empty]
      simp
    rcases h with ⟨h0, ho, -, hl⟩ | ⟨h0, h1, ho, -, hl⟩ |
      ⟨h0, h1, err, Wa, Wb, hgo, hfr, ho, -, hl⟩ |
      ⟨h0, h1, p, Wa, Wb, err, Wc, Wd, hgo, -, ho, -, hl⟩ |
      ⟨h0, h1, h2, ⟨p, d, Wa, Wb, Wc, Wd, hgo, -⟩, ho, -, hl⟩ |
      ⟨h0, h1, h2, h3, ⟨p, d, Wa, Wb, Wc, Wd, hgo, -⟩, ho, -, hl⟩ |
      ⟨h0, h1, h2, h3, p, d, Wa, Wb, Wc, Wd, err, We, Wf, hgo, -, -, -, ho, -, hl⟩ |
      ⟨h0, h1, h2, h3, p, d, Wa, Wb, Wc, Wd, err, We, Wf, Wg, Wh, hgo, -, -, -, -, -, ho, -, hl⟩ |
      ⟨h0, h1, h2, h3, p, d, Wa, Wb, Wc, Wd, We, Wf, Wg, Wh, hgo, -, -, -, -, -, ho, -, hl⟩
    · obtain ⟨e, he⟩ := aborts_exists h0
      rw [ho, hl, he]
      exact ⟨⟨e, rfl⟩, rfl⟩
    · obtain ⟨e, he⟩ := aborts_exists h1
      rw [ho, hl, he]
      exact ⟨⟨e, rfl⟩, rfl⟩
    · obtain ⟨e, he⟩ := finalErr_some_exists cfg u2 err
      rw [getCSPObject_empty] at hgo
      simp only [Prod.mk.injEq] at hgo
      obtain ⟨-, hW⟩ := hgo
      subst hW
      have hf1 : f1 = [] := by simpa using hfr
      subst hf1
      rw [ho, hl, he]
      exact ⟨⟨e, rfl⟩, rfl⟩
    all_goals exact absurd hgo (hok _ _ _)

/-- C10 at a sample cluster: with the empty pool name and namespace `openebs`
the lookup is logged. -/
theorem missing_identifier_witness :
    (getCSPDeployment (sampleEnv (samplePool "1.0.0") (sampleDeploy "1.0.0" threeContainers)
        false (fun _ => false)) cfgSoft ⟨[], ""⟩ "" "openebs").2 =
      World.log ⟨[], ""⟩ (.getDeployment "openebs.io/cstor-pool=" "openebs") :=
  ((missing_identifier _ cfgSoft ⟨[], ""⟩).2.2.1 "openebs" (by decide)).1

end CspUpgrade
